import Mathlib

/-!
Verification of the uc3m_money account-management core (Spanish IBAN
validation, transfer/deposit validation, duplicate detection, balance
computation) against its natural-language specification.

Strings are modelled as `List Char`; Python's arbitrary-precision `int`
as `Nat`/`Int`; Python `float` values appearing in this code base as
exact decimals (see `PyDec` below).  Fallible Python code (raising
`AccountManagementException` or built-in errors) is modelled with
`Except`.
-/

/-- Error kinds, one per distinct `raise AccountManagementException(...)`
site in the source.  The Python message text attached to each site is
given by `AMErr.message`; note that several distinct sites share one
message string. -/
inductive AMErr where
  | invalidIbanFormat
  | invalidIbanControlDigit
  | invalidConceptFormat
  | invalidDateFormat
  | pastDate
  | invalidDateYear
  | invalidTransferType
  | invalidAmountFloat
  | invalidAmountFrac
  | amountOutOfRange
  | duplicatedTransfer
  | jsonDecodeError
  | wrongFilePath
  | invalidKeyInJson
  | invalidDepositAmount
  | depositZero
  | fileInputNotFound
  | ibanNotFound
  | transactionsFileMissing
  deriving DecidableEq, Repr

/-- The Python exception message for each raise site.  In the source,
`invalidDateYear` reuses the text "Invalid date format" and the three
amount failures share "Invalid transfer amount". -/
def AMErr.message : AMErr → String
  | .invalidIbanFormat => "Invalid IBAN format"
  | .invalidIbanControlDigit => "Invalid IBAN control digit"
  | .invalidConceptFormat => "Invalid concept format"
  | .invalidDateFormat => "Invalid date format"
  | .pastDate => "Transfer date must be today or later."
  | .invalidDateYear => "Invalid date format"
  | .invalidTransferType => "Invalid transfer type"
  | .invalidAmountFloat => "Invalid transfer amount"
  | .invalidAmountFrac => "Invalid transfer amount"
  | .amountOutOfRange => "Invalid transfer amount"
  | .duplicatedTransfer => "Duplicated transfer in transfer list"
  | .jsonDecodeError => "JSON Decode Error - Wrong JSON Format"
  | .wrongFilePath => "Wrong file or file path"
  | .invalidKeyInJson => "Error - Invalid Key in JSON"
  | .invalidDepositAmount => "Error - Invalid deposit amount"
  | .depositZero => "Error - Deposit must be greater than 0"
  | .fileInputNotFound => "Error: file input not found"
  | .ibanNotFound => "IBAN not found"
  | .transactionsFileMissing => "Wrong file  or file path"

/-- Errors escaping an operation: either a typed
`AccountManagementException` or an unhandled Python built-in error
(`KeyError` from a dict lookup, `TypeError`/`ValueError` from misuse of
a built-in on an unexpected runtime type). -/
inductive PyErr where
  | am (e : AMErr)
  | keyError (k : List Char)
  | typeError
  | valueError
  deriving DecidableEq, Repr

/-- Decidable equality of `Except` results, used to evaluate the
embedded functions on concrete inputs. -/
instance {ε α : Type} [DecidableEq ε] [DecidableEq α] : DecidableEq (Except ε α) := fun x y =>
  match x, y with
  | Except.ok a, Except.ok b =>
    if h : a = b then isTrue (by rw [h])
    else isFalse (fun hh => h (Except.ok.inj hh))
  | Except.error e, Except.error f =>
    if h : e = f then isTrue (by rw [h])
    else isFalse (fun hh => h (Except.error.inj hh))
  | Except.ok _, Except.error _ => isFalse (fun hh => Except.noConfusion hh)
  | Except.error _, Except.ok _ => isFalse (fun hh => Except.noConfusion hh)

/-! ## Characters and digit strings -/

/-- ASCII decimal digit, as matched by the regex class `[0-9]`. -/
def isDigitCh (c : Char) : Bool := '0' ≤ c && c ≤ '9'

/-- Numeric value of a digit character. -/
def digitVal (c : Char) : Nat := c.toNat - '0'.toNat

/-- Value of a digit string, as computed by Python `int(...)` on a
string of decimal digits. -/
def digitsToNat (s : List Char) : Nat :=
  s.foldl (fun acc c => 10 * acc + digitVal c) 0

/-- Auxiliary for `natToDigits`: decimal digits of `n`, least
significant first, with structural fuel (any `fuel ≥ n` is exact). -/
def natDigitsRev : Nat → Nat → List Char
  | 0, _ => []
  | fuel + 1, n =>
    if n = 0 then []
    else Char.ofNat ('0'.toNat + n % 10) :: natDigitsRev fuel (n / 10)

/-- Decimal digit characters of `n`, most significant first
(the digits Python renders for a nonnegative integer). -/
def natToDigits (n : Nat) : List Char :=
  if n = 0 then ['0'] else (natDigitsRev n n).reverse

/-! ## IBAN validation

Embedding of `AccountManager.validate_iban`
(src/main/python/uc3m_money/account_manager.py, lines 42-60; the same
function appears verbatim in transfer_manager.py and in the dist
utils.py). -/

/-- The format regex `^ES[0-9]{22}` applied with `fullmatch`: the whole
string is the two letters `ES` followed by exactly 22 ASCII digits. -/
def ibanFormatMatch : List Char → Bool
  | c :: d :: rest => c == 'E' && d == 'S' && rest.length == 22 && rest.all isDigitCh
  | _ => false

/-- The loop `for char, value in zip("A..Z", range(10, 36)): iban =
iban.replace(char, str(value))`.  Each replacement string consists of
digits only, so the 26 sequential global replacements are equivalent to
this single left-to-right pass expanding each letter in place. -/
def replaceLetters (s : List Char) : List Char :=
  s.flatMap (fun c =>
    if 'A' ≤ c && c ≤ 'Z' then natToDigits (c.toNat - 'A'.toNat + 10) else [c])

/-- The two string rewrites `iban = iban[:2] + "00" + iban[4:]` and
`iban = iban[4:] + iban[:4]`: check digits replaced by "00", then the
first four characters rotated to the end. -/
def ibanRewritten (s : List Char) : List Char :=
  (s.take 2 ++ ['0', '0'] ++ s.drop 4).drop 4 ++
    (s.take 2 ++ ['0', '0'] ++ s.drop 4).take 4

/-- `numeric_iban = int(iban)` after the letter substitution loop. -/
def ibanNumeric (s : List Char) : Nat :=
  digitsToNat (replaceLetters (ibanRewritten s))

/-- `AccountManager.validate_iban`: format check with the regex
`^ES[0-9]{22}`, then the mod-97 control-digit check obtained by
replacing the check digits with "00", rotating the first four
characters to the end, substituting letter values, and parsing the
result with `int(...)`; `computed_dc = 98 - remainder` is compared with
`int(original_code)`. -/
def validate_iban (iban_str : List Char) : Except AMErr (List Char) :=
  if ibanFormatMatch iban_str then
    if digitsToNat ((iban_str.drop 2).take 2) = 98 - ibanNumeric iban_str % 97 then
      Except.ok iban_str
    else Except.error AMErr.invalidIbanControlDigit
  else Except.error AMErr.invalidIbanFormat

/-! Specification-side reading of the IBAN rules (spec sections 4.1 and
8), written from the spec text, to be compared with the embedding. -/

/-- Spec: the string is exactly `ES` followed by 22 digits. -/
def specIbanFormat (s : List Char) : Prop :=
  s.length = 24 ∧ s.take 2 = ['E', 'S'] ∧ ∀ c ∈ s.drop 2, isDigitCh c = true

instance (s : List Char) : Decidable (specIbanFormat s) := by
  unfold specIbanFormat; infer_instance

/-- Spec: the big integer N obtained from the IBAN by replacing the
check digits with "00", rotating the first 4 characters to the end and
mapping letters A-Z to 10-35.  For a string of shape `ES` + check +
22 digits this is the number whose decimal numeral is the 20 trailing
digits followed by "142800" (E maps to 14, S to 28, then the two
zeros). -/
def specIbanN (s : List Char) : Nat :=
  digitsToNat (s.drop 4) * 1000000 + 142800

/-- Spec: the integer value of the check digits `s[2:4]` equals
`98 - (N mod 97)`. -/
def specIbanChecksum (s : List Char) : Prop :=
  digitsToNat ((s.drop 2).take 2) = 98 - specIbanN s % 97

instance (s : List Char) : Decidable (specIbanChecksum s) := by
  unfold specIbanChecksum; infer_instance

/-! ## Transfer date validation

Embedding of `AccountManager.validate_transfer_date`
(src/main/python/uc3m_money/account_manager.py, lines 68-81; identical
logic in transfer_manager.py).  Calendar dates are modelled explicitly;
the runtime value `datetime.now(timezone.utc).date()` is passed in as
the parameter `today`. -/

/-- A calendar date as `datetime.date`: year, month, day. -/
structure PDate where
  year : Nat
  month : Nat
  day : Nat
  deriving DecidableEq, Repr

/-- Python `date` comparison: lexicographic on (year, month, day). -/
def dateLtB (a b : PDate) : Bool :=
  a.year < b.year ||
    (a.year == b.year &&
      (a.month < b.month || (a.month == b.month && a.day < b.day)))

/-- Gregorian leap-year rule used by `datetime`. -/
def isLeapYear (y : Nat) : Bool :=
  (y % 4 == 0 && y % 100 != 0) || y % 400 == 0

/-- Days in a month of the proleptic Gregorian calendar. -/
def daysInMonth (y m : Nat) : Nat :=
  if m == 2 then (if isLeapYear y then 29 else 28)
  else if m == 4 || m == 6 || m == 9 || m == 11 then 30
  else 31

/-- The date-shape regex `^(([0-2]\d|3[0-1])\/(0\d|1[0-2])\/\d\d\d\d)$`
applied with `fullmatch` (ASCII digits). -/
def dateShapeMatch : List Char → Bool
  | [d1, d2, '/', m1, m2, '/', y1, y2, y3, y4] =>
      ((('0' ≤ d1 && d1 ≤ '2') && isDigitCh d2) ||
        (d1 == '3' && ('0' ≤ d2 && d2 ≤ '1'))) &&
      ((m1 == '0' && isDigitCh m2) || (m1 == '1' && ('0' ≤ m2 && m2 ≤ '2'))) &&
      (isDigitCh y1 && isDigitCh y2 && isDigitCh y3 && isDigitCh y4)
  | _ => false

/-- `datetime.strptime(t_d, "%d/%m/%Y").date()`: two-digit day and
month, four-digit year, separated by slashes, denoting a real calendar
date (day within the month, month 1-12, year at least `datetime.MINYEAR`
which is 1); otherwise `ValueError`, modelled as `none`. -/
def strptimeDMY (s : List Char) : Option PDate :=
  match s with
  | [d1, d2, '/', m1, m2, '/', y1, y2, y3, y4] =>
    if [d1, d2, m1, m2, y1, y2, y3, y4].all isDigitCh then
      let day := digitsToNat [d1, d2]
      let month := digitsToNat [m1, m2]
      let year := digitsToNat [y1, y2, y3, y4]
      if 1 ≤ year ∧ 1 ≤ month ∧ month ≤ 12 ∧ 1 ≤ day ∧ day ≤ daysInMonth year month
      then some ⟨year, month, day⟩
      else none
    else none
  | _ => none

/-- `AccountManager.validate_transfer_date`: regex shape check, strict
parse, then reject dates strictly before `today`, then reject calendar
years outside [2025, 2050] (the year check raises with the message
"Invalid date format", see `AMErr.message`). -/
def validate_transfer_date (today : PDate) (t_d : List Char) : Except AMErr (List Char) :=
  if dateShapeMatch t_d then
    match strptimeDMY t_d with
    | none => Except.error AMErr.invalidDateFormat
    | some my_date =>
      if dateLtB my_date today then Except.error AMErr.pastDate
      else if my_date.year < 2025 ∨ my_date.year > 2050 then
        Except.error AMErr.invalidDateYear
      else Except.ok t_d
  else Except.error AMErr.invalidDateFormat

/-! ## Python floats as exact decimals

The only float values this code base produces are (a) `float(...)` of
decimal strings with few significant digits and (b) timestamps; for
such values Python's shortest-round-trip `str(float(...))` is exactly
the minimal decimal form of the decimal value (doubles round-trip
decimals of up to 15 significant digits, and none of the validated
ranges reach the 1e16 threshold for scientific notation).  A float is
therefore modelled as an exact signed decimal `units / 10^scale`, with
`float(...)` conversion normalizing to minimal form and `str(...)`
printing that form. -/

/-- A decimal number `(-1)^neg * units / 10^scale`. -/
structure PyDec where
  neg : Bool
  units : Nat
  scale : Nat
  deriving DecidableEq, Repr

/-- Rational value of a decimal. -/
def PyDec.val (d : PyDec) : ℚ :=
  (if d.neg then -1 else 1) * (d.units : ℚ) / (10 : ℚ) ^ d.scale

/-- Strip trailing decimal zeros: minimal `(units, scale)` pair of the
same value. -/
def stripZeros : Nat → Nat → Nat × Nat
  | units, 0 => (units, 0)
  | units, s + 1 =>
    if units % 10 = 0 then stripZeros (units / 10) s else (units, s + 1)

/-- Canonical (minimal) decimal form: the model of `float(...)` applied
to a decimal input. -/
def pyNorm (d : PyDec) : PyDec :=
  ⟨d.neg, (stripZeros d.units d.scale).1, (stripZeros d.units d.scale).2⟩

/-- Left-pad a digit string with zeros to width `n`. -/
def padLeftZeros (l : List Char) (n : Nat) : List Char :=
  List.replicate (n - l.length) '0' ++ l

/-- Python `str` of a float: sign, integer digits, a dot, then the
fractional digits of the minimal form (a lone `0` when the value is
integral, as in `str(10.0) = "10.0"`). -/
def pyStr (d : PyDec) : List Char :=
  let n := pyNorm d
  (if n.neg then ['-'] else []) ++ natToDigits (n.units / 10 ^ n.scale) ++
    ['.'] ++
    (if n.scale = 0 then ['0']
     else padLeftZeros (natToDigits (n.units % 10 ^ n.scale)) n.scale)

/-- Python `s.split('.')[1]` for a string containing one dot: the part
after the first dot. -/
def afterDot (s : List Char) : List Char :=
  (s.dropWhile (fun c => c != '.')).drop 1

/-! ## Transfer amount validation

Embedding of the amount segment of
`AccountManager.validate_transfer_details`
(src/main/python/uc3m_money/account_manager.py, lines 89-96).  The
input domain is decimal numbers (`PyDec`); non-numeric strings, which
raise `ValueError` and map to the same "Invalid transfer amount"
message, fall outside this domain. -/

/-- Lines 89-96: `f_amount = float(amount)`, then reject when
`'.' in str(f_amount)` and `len(str(f_amount).split('.')[1]) > 2`,
then reject when `f_amount < 10 or f_amount > 10000`; on success the
float `f_amount` is returned. -/
def validate_amount (amount : PyDec) : Except AMErr PyDec :=
  let f_amount := pyNorm amount
  if ('.' ∈ pyStr f_amount) ∧ 2 < (afterDot (pyStr f_amount)).length then
    Except.error AMErr.invalidAmountFrac
  else if f_amount.val < 10 ∨ 10000 < f_amount.val then
    Except.error AMErr.amountOutOfRange
  else Except.ok f_amount

/-- Spec-side reading for C3: the parsed value is an integer multiple
of 0.01, i.e. has at most two fractional digits as a number. -/
def centsIntegral (q : ℚ) : Prop := ∃ n : ℤ, q * 100 = (n : ℚ)

/-! ## Concept and transfer-type validation

Embedding of `AccountManager.validate_concept` (lines 62-66) and the
transfer-type check of `validate_transfer_details` (lines 86-87). -/

/-- ASCII letter, the regex class `[a-zA-Z]`. -/
def isAlphaCh (c : Char) : Bool :=
  ('a' ≤ c && c ≤ 'z') || ('A' ≤ c && c ≤ 'Z')

/-- The regex class `\s` (ASCII part). -/
def isSpaceCh (c : Char) : Bool :=
  c == ' ' || c == '\t' || c == '\n' || c == '\r' || c == '\x0b' || c == '\x0c'

/-- Matcher for `(\s[a-zA-Z]+)*`: since letters and whitespace are
disjoint, maximal-munch consumption of each letter run is exact. -/
def spaceAlphaSeq : List Char → Bool
  | [] => true
  | [_] => false
  | c :: d :: ds =>
    isSpaceCh c && isAlphaCh d && spaceAlphaSeq (ds.dropWhile isAlphaCh)
termination_by l => l.length
decreasing_by
  simp only [List.length_cons]
  have := (List.dropWhile_sublist (l := ds) (p := isAlphaCh)).length_le
  omega

/-- The concept regex `^(?=^.{10,30}$)([a-zA-Z]+(\s[a-zA-Z]+)+)$` under
`fullmatch`: the lookahead demands 10-30 characters none of which is a
newline (`.` excludes `\n`; a trailing-newline match of `$` is
impossible because the main group must cover the whole string and ends
in a letter), and the main group demands two or more letter words
separated by single whitespace characters. -/
def conceptRegexMatch (s : List Char) : Bool :=
  (10 ≤ s.length && s.length ≤ 30) && !(s.contains '\n') &&
    (match s with
     | [] => false
     | c :: cs =>
       isAlphaCh c &&
         (let rest := cs.dropWhile isAlphaCh
          !rest.isEmpty && spaceAlphaSeq rest))

/-- `AccountManager.validate_concept`. -/
def validate_concept (concept : List Char) : Except AMErr Unit :=
  if conceptRegexMatch concept then Except.ok ()
  else Except.error AMErr.invalidConceptFormat

/-- The transfer-type regex `(ORDINARY|INMEDIATE|URGENT)` under
`fullmatch` (note the source literal INMEDIATE). -/
def transferTypeMatch (t : List Char) : Bool :=
  t == "ORDINARY".toList || t == "INMEDIATE".toList || t == "URGENT".toList

/-- `AccountManager.validate_transfer_details` (lines 83-97): concept,
then type, then date, then amount, fail-fast in that order; returns the
validated float amount. -/
def validate_transfer_details (concept transfer_type date : List Char)
    (amount : PyDec) (today : PDate) : Except AMErr PyDec :=
  match validate_concept concept with
  | Except.error e => Except.error e
  | Except.ok _ =>
    if transferTypeMatch transfer_type then
      match validate_transfer_date today date with
      | Except.error e => Except.error e
      | Except.ok _ => validate_amount amount
    else Except.error AMErr.invalidTransferType

/-! ## MD5

Embedding of `hashlib.md5(...).hexdigest()` as used by
`TransferRequest.transfer_code` (the file
src/main/python/uc3m_money/account_deposit.py holds the
`TransferRequest` class), following the standard MD5 definition
(RFC 1321).  Bytes and 32-bit words are `Nat` values reduced modulo
2^8 and 2^32. -/

/-- Truncation to a 32-bit word. -/
def w32 (n : Nat) : Nat := n % 4294967296

/-- 32-bit left rotation (for `x < 2^32`, `s < 32`). -/
def rotl32 (x s : Nat) : Nat := w32 (x * 2 ^ s + x / 2 ^ (32 - s))

/-- MD5 round function F. -/
def md5F (b c d : Nat) : Nat := (b &&& c) ||| ((4294967295 ^^^ b) &&& d)

/-- MD5 round function G. -/
def md5G (b c d : Nat) : Nat := (d &&& b) ||| ((4294967295 ^^^ d) &&& c)

/-- MD5 round function H. -/
def md5H (b c d : Nat) : Nat := b ^^^ c ^^^ d

/-- MD5 round function I. -/
def md5I (b c d : Nat) : Nat := c ^^^ (b ||| (4294967295 ^^^ d))

/-- The 64 sine-derived constants of RFC 1321. -/
def md5K : List Nat :=
  [0xd76aa478, 0xe8c7b756, 0x242070db, 0xc1bdceee,
   0xf57c0faf, 0x4787c62a, 0xa8304613, 0xfd469501,
   0x698098d8, 0x8b44f7af, 0xffff5bb1, 0x895cd7be,
   0x6b901122, 0xfd987193, 0xa679438e, 0x49b40821,
   0xf61e2562, 0xc040b340, 0x265e5a51, 0xe9b6c7aa,
   0xd62f105d, 0x02441453, 0xd8a1e681, 0xe7d3fbc8,
   0x21e1cde6, 0xc33707d6, 0xf4d50d87, 0x455a14ed,
   0xa9e3e905, 0xfcefa3f8, 0x676f02d9, 0x8d2a4c8a,
   0xfffa3942, 0x8771f681, 0x6d9d6122, 0xfde5380c,
   0xa4beea44, 0x4bdecfa9, 0xf6bb4b60, 0xbebfbc70,
   0x289b7ec6, 0xeaa127fa, 0xd4ef3085, 0x04881d05,
   0xd9d4d039, 0xe6db99e5, 0x1fa27cf8, 0xc4ac5665,
   0xf4292244, 0x432aff97, 0xab9423a7, 0xfc93a039,
   0x655b59c3, 0x8f0ccc92, 0xffeff47d, 0x85845dd1,
   0x6fa87e4f, 0xfe2ce6e0, 0xa3014314, 0x4e0811a1,
   0xf7537e82, 0xbd3af235, 0x2ad7d2bb, 0xeb86d391]

/-- The per-round left-rotation amounts. -/
def md5S : List Nat :=
  [7, 12, 17, 22, 7, 12, 17, 22, 7, 12, 17, 22, 7, 12, 17, 22,
   5, 9, 14, 20, 5, 9, 14, 20, 5, 9, 14, 20, 5, 9, 14, 20,
   4, 11, 16, 23, 4, 11, 16, 23, 4, 11, 16, 23, 4, 11, 16, 23,
   6, 10, 15, 21, 6, 10, 15, 21, 6, 10, 15, 21, 6, 10, 15, 21]

/-- Message-word index for round `i`. -/
def md5g (i : Nat) : Nat :=
  if i < 16 then i
  else if i < 32 then (5 * i + 1) % 16
  else if i < 48 then (3 * i + 5) % 16
  else (7 * i) % 16

/-- Round function selection for round `i`. -/
def md5f (i b c d : Nat) : Nat :=
  if i < 16 then md5F b c d
  else if i < 32 then md5G b c d
  else if i < 48 then md5H b c d
  else md5I b c d

/-- One MD5 round on state (A, B, C, D). -/
def md5Round (M : List Nat) (st : Nat × Nat × Nat × Nat) (i : Nat) :
    Nat × Nat × Nat × Nat :=
  let Fv := w32 (md5f i st.2.1 st.2.2.1 st.2.2.2 + st.1 +
    md5K.getD i 0 + M.getD (md5g i) 0)
  (st.2.2.2, w32 (st.2.1 + rotl32 Fv (md5S.getD i 0)), st.2.1, st.2.2.1)

/-- Process one 512-bit chunk (16 words) and add into the state. -/
def md5Chunk (st : Nat × Nat × Nat × Nat) (M : List Nat) :
    Nat × Nat × Nat × Nat :=
  let r := (List.range 64).foldl (md5Round M) st
  (w32 (st.1 + r.1), w32 (st.2.1 + r.2.1),
    w32 (st.2.2.1 + r.2.2.1), w32 (st.2.2.2 + r.2.2.2))

/-- Little-endian bytes of `n`, `k` bytes wide. -/
def leBytes : Nat → Nat → List Nat
  | _, 0 => []
  | n, k + 1 => n % 256 :: leBytes (n / 256) k

/-- Little-endian 32-bit words from a byte list (length a multiple of
4 on all inputs used). -/
def bytesToWordsLE : List Nat → List Nat
  | b0 :: b1 :: b2 :: b3 :: rest =>
    (b0 + 256 * b1 + 65536 * b2 + 16777216 * b3) :: bytesToWordsLE rest
  | _ => []

/-- MD5 padding: a 0x80 byte, zeros to 56 mod 64, then the 64-bit
little-endian bit length. -/
def md5Pad (msg : List Nat) : List Nat :=
  msg ++ [128] ++
    List.replicate ((56 + 64 - (msg.length + 1) % 64) % 64) 0 ++
    leBytes ((msg.length * 8) % 18446744073709551616) 8

/-- Split into 64-byte chunks (the fuel argument, instantiated with the
list length, keeps the recursion structural). -/
def chunks64 : Nat → List Nat → List (List Nat)
  | 0, _ => []
  | _, [] => []
  | fuel + 1, l => l.take 64 :: chunks64 fuel (l.drop 64)

/-- The MD5 digest: 16 bytes. -/
def md5Digest (msg : List Nat) : List Nat :=
  let padded := md5Pad msg
  let st := (chunks64 padded.length padded).foldl
    (fun st ch => md5Chunk st (bytesToWordsLE ch))
    (0x67452301, 0xefcdab89, 0x98badcfe, 0x10325476)
  leBytes st.1 4 ++ leBytes st.2.1 4 ++ leBytes st.2.2.1 4 ++ leBytes st.2.2.2 4

/-- Lower-case hex digit character. -/
def hexCharLower (n : Nat) : Char :=
  if n < 10 then Char.ofNat ('0'.toNat + n)
  else Char.ofNat ('a'.toNat + (n - 10))

/-- Lower-case hex digit test. -/
def isHexLowerCh (c : Char) : Bool :=
  ('0' ≤ c && c ≤ '9') || ('a' ≤ c && c ≤ 'f')

/-- Hex rendering of a byte list, two characters per byte
(`hexdigest()`). -/
def bytesToHexChars : List Nat → List Char
  | [] => []
  | b :: bs => hexCharLower (b / 16) :: hexCharLower (b % 16) :: bytesToHexChars bs

/-- `s.encode()`: UTF-8 bytes; all strings hashed by this code base are
ASCII, for which UTF-8 is the identity on code points. -/
def strToBytes (s : List Char) : List Nat := s.map Char.toNat

/-- `hashlib.md5(s.encode()).hexdigest()`. -/
def md5HexOfString (s : List Char) : List Char :=
  bytesToHexChars (md5Digest (strToBytes s))

/-! ## JSON records and the transfer store

JSON scalar values and record objects as stored in the ledger files.
`json.load` turns JSON numbers with fractional parts into floats;
float equality is value equality, so numbers are carried as ℚ. -/

/-- A JSON scalar value. -/
inductive JVal where
  | s (v : List Char)
  | n (v : ℚ)
  | null
  deriving DecidableEq, Repr

/-- A JSON object: association list of string keys (first match wins;
Python dicts have unique keys). -/
abbrev JsonRec := List (List Char × JVal)

/-- `dict.get(key)`: first value under `key`, if present. -/
def lookupKey : JsonRec → List Char → Option JVal
  | [], _ => none
  | (k, v) :: rest, key => if k == key then some v else lookupKey rest key

/-- `dict[key]`: value under `key`, or a `KeyError` carrying the key. -/
def getKey (t : JsonRec) (k : List Char) : Except (List Char) JVal :=
  match lookupKey t k with
  | some v => Except.ok v
  | none => Except.error k

/-- Python `==` between a JSON value and a string. -/
def jeqStr : JVal → List Char → Bool
  | JVal.s v, w => v == w
  | _, _ => false

/-- Python `==` between a JSON value and a float. -/
def jeqNum : JVal → ℚ → Bool
  | JVal.n v, q => v == q
  | _, _ => false

/-- `TransferRequest` (src/main/python/uc3m_money/account_deposit.py):
transfer fields plus the construction-time timestamp
`datetime.timestamp(datetime.now(timezone.utc))`. -/
structure TransferRequest where
  from_iban : List Char
  to_iban : List Char
  transfer_concept : List Char
  transfer_type : List Char
  transfer_date : List Char
  transfer_amount : PyDec
  time_stamp : PyDec
  deriving DecidableEq, Repr

/-- The f-string
`f"{self.from_iban}{self.to_iban}{self.time_stamp}{self.transfer_amount}"`:
unseparated concatenation, floats rendered by `str`. -/
def transferStringOf (r : TransferRequest) : List Char :=
  r.from_iban ++ r.to_iban ++ pyStr r.time_stamp ++ pyStr r.transfer_amount

/-- `TransferRequest.transfer_code`: MD5 hexdigest of the
concatenation. -/
def TransferRequest.transfer_code (r : TransferRequest) : List Char :=
  md5HexOfString (transferStringOf r)

/-- `TransferRequest.to_json`. -/
def TransferRequest.to_json (r : TransferRequest) : JsonRec :=
  [("from_iban".toList, JVal.s r.from_iban),
   ("to_iban".toList, JVal.s r.to_iban),
   ("transfer_concept".toList, JVal.s r.transfer_concept),
   ("transfer_type".toList, JVal.s r.transfer_type),
   ("transfer_date".toList, JVal.s r.transfer_date),
   ("transfer_amount".toList, JVal.n r.transfer_amount.val),
   ("time_stamp".toList, JVal.n r.time_stamp.val),
   ("transfer_code".toList, JVal.s r.transfer_code)]

/-- The six-key comparison of `is_duplicate_transfer` for one stored
record, with Python's left-to-right short-circuit `and`: each
`t_i[key]` lookup can raise `KeyError`, and later lookups are skipped
as soon as one comparison is false.  Comparison order as in the source:
from_iban, to_iban, transfer_date, transfer_amount, transfer_concept,
transfer_type. -/
def recordMatches (t : JsonRec) (r : TransferRequest) : Except (List Char) Bool :=
  match getKey t ("from_iban".toList) with
  | Except.error k => Except.error k
  | Except.ok v1 =>
    if jeqStr v1 r.from_iban then
      match getKey t ("to_iban".toList) with
      | Except.error k => Except.error k
      | Except.ok v2 =>
        if jeqStr v2 r.to_iban then
          match getKey t ("transfer_date".toList) with
          | Except.error k => Except.error k
          | Except.ok v3 =>
            if jeqStr v3 r.transfer_date then
              match getKey t ("transfer_amount".toList) with
              | Except.error k => Except.error k
              | Except.ok v4 =>
                if jeqNum v4 r.transfer_amount.val then
                  match getKey t ("transfer_concept".toList) with
                  | Except.error k => Except.error k
                  | Except.ok v5 =>
                    if jeqStr v5 r.transfer_concept then
                      match getKey t ("transfer_type".toList) with
                      | Except.error k => Except.error k
                      | Except.ok v6 => Except.ok (jeqStr v6 r.transfer_type)
                    else Except.ok false
                else Except.ok false
            else Except.ok false
        else Except.ok false
    else Except.ok false

/-- `AccountManager.is_duplicate_transfer` (lines 99-109): linear scan,
returning at the first full match; an unhandled `KeyError` escapes. -/
def is_duplicate_transfer : List JsonRec → TransferRequest → Except (List Char) Bool
  | [], _ => Except.ok false
  | t :: ts, r =>
    match recordMatches t r with
    | Except.error k => Except.error k
    | Except.ok true => Except.ok true
    | Except.ok false => is_duplicate_transfer ts r

/-- Spec-side: a stored record matches the request on all six business
fields (timestamp excluded). -/
def MatchesSix (t : JsonRec) (r : TransferRequest) : Prop :=
  lookupKey t ("from_iban".toList) = some (JVal.s r.from_iban) ∧
  lookupKey t ("to_iban".toList) = some (JVal.s r.to_iban) ∧
  lookupKey t ("transfer_date".toList) = some (JVal.s r.transfer_date) ∧
  lookupKey t ("transfer_amount".toList) = some (JVal.n r.transfer_amount.val) ∧
  lookupKey t ("transfer_concept".toList) = some (JVal.s r.transfer_concept) ∧
  lookupKey t ("transfer_type".toList) = some (JVal.s r.transfer_type)

instance (t : JsonRec) (r : TransferRequest) : Decidable (MatchesSix t r) := by
  unfold MatchesSix; infer_instance

/-- A stored record carries all six compared keys. -/
def HasSixKeys (t : JsonRec) : Prop :=
  (lookupKey t ("from_iban".toList)).isSome = true ∧
  (lookupKey t ("to_iban".toList)).isSome = true ∧
  (lookupKey t ("transfer_date".toList)).isSome = true ∧
  (lookupKey t ("transfer_amount".toList)).isSome = true ∧
  (lookupKey t ("transfer_concept".toList)).isSome = true ∧
  (lookupKey t ("transfer_type".toList)).isSome = true

instance (t : JsonRec) : Decidable (HasSixKeys t) := by
  unfold HasSixKeys; infer_instance

/-- The store phase of `AccountManager.transfer_request` (lines
131-135) on an already-validated request: duplicate check against the
loaded list, then append of the record's JSON representation; the pair
carries the resulting store contents alongside the outcome (unchanged
on failure). -/
def transfer_store_phase (store : List JsonRec) (r : TransferRequest) :
    Except PyErr (List Char) × List JsonRec :=
  match is_duplicate_transfer store r with
  | Except.error k => (Except.error (PyErr.keyError k), store)
  | Except.ok true => (Except.error (PyErr.am AMErr.duplicatedTransfer), store)
  | Except.ok false => (Except.ok r.transfer_code, store ++ [r.to_json])

/-- Deciding existence of a matching record in a store by scanning. -/
instance (store : List JsonRec) (r : TransferRequest) :
    Decidable (∃ t ∈ store, MatchesSix t r) :=
  List.decidableBEx _ store

/-! ## Ledger files and the three entry points

A store file is either absent, present but not valid JSON, or a JSON
array of records.  The runtime clock values (`datetime.now`) are passed
in as parameters `today` and `now_ts`. -/

/-- Contents of a JSON store file. -/
inductive FileContent where
  | missing
  | malformed
  | arr (l : List JsonRec)
  deriving DecidableEq, Repr

/-- The four store files named in account_management_config. -/
structure FS where
  transfers : FileContent
  deposits : FileContent
  balances : FileContent
  transactions : FileContent
  deriving DecidableEq, Repr

/-- `AccountManager.read_json_file` (lines 22-30): a missing file is an
empty list, invalid JSON raises the decode error. -/
def read_json_file : FileContent → Except PyErr (List JsonRec)
  | FileContent.missing => Except.ok []
  | FileContent.malformed => Except.error (PyErr.am AMErr.jsonDecodeError)
  | FileContent.arr l => Except.ok l

/-- The deposit input file: a JSON object rather than an array. -/
inductive DepInput where
  | missing
  | malformed
  | obj (fields : JsonRec)
  deriving DecidableEq, Repr

/-- `DepositManager._load_json_strict` (deposit_manager.py lines
40-48): a missing input file is an error, unlike the ledger reads. -/
def load_json_strict : DepInput → Except PyErr JsonRec
  | DepInput.missing => Except.error (PyErr.am AMErr.fileInputNotFound)
  | DepInput.malformed => Except.error (PyErr.am AMErr.jsonDecodeError)
  | DepInput.obj d => Except.ok d

/-- `AccountManager.transfer_request` (lines 111-137): validate both
IBANs, then concept/type/date/amount, construct the request with the
captured timestamp, load the transfer store, duplicate-check, append
and write.  The returned pair carries the resulting file system;
every failure leaves it untouched. -/
def transfer_request (fs : FS)
    (from_iban to_iban concept transfer_type date : List Char)
    (amount : PyDec) (today : PDate) (now_ts : PyDec) :
    Except PyErr (List Char) × FS :=
  match validate_iban from_iban with
  | Except.error e => (Except.error (PyErr.am e), fs)
  | Except.ok _ =>
  match validate_iban to_iban with
  | Except.error e => (Except.error (PyErr.am e), fs)
  | Except.ok _ =>
  match validate_transfer_details concept transfer_type date amount today with
  | Except.error e => (Except.error (PyErr.am e), fs)
  | Except.ok validated_amount =>
  match read_json_file fs.transfers with
  | Except.error e => (Except.error e, fs)
  | Except.ok transfer_list =>
  match transfer_store_phase transfer_list
      ⟨from_iban, to_iban, concept, transfer_type, date, validated_amount, now_ts⟩ with
  | (Except.error e, _) => (Except.error e, fs)
  | (Except.ok code, new_list) =>
    (Except.ok code, { fs with transfers := FileContent.arr new_list })

/-- The deposit amount regex `^EUR [0-9]{4}\.[0-9]{2}` under
`fullmatch`. -/
def eurAmountMatch : List Char → Bool
  | ['E', 'U', 'R', ' ', a, b, c, d, '.', e, f] =>
    isDigitCh a && isDigitCh b && isDigitCh c && isDigitCh d &&
      isDigitCh e && isDigitCh f
  | _ => false

/-- `float(deposit_amount[4:])` for a matching amount string: the
decimal dddd.dd in canonical float form. -/
def eurAmountValue (s : List Char) : PyDec :=
  pyNorm ⟨false, digitsToNat ((s.drop 4).take 4 ++ s.drop 9), 2⟩

/-- `DepositManager._validate_deposit_payload` (deposit_manager.py
lines 50-66): both keys required (`KeyError` is caught and mapped to
the invalid-key error), then the IBAN is validated, then the amount
pattern, then the zero check.  A non-string under either key makes
`re.fullmatch` raise an unhandled `TypeError`. -/
def validate_deposit_payload (deposit_data : JsonRec) :
    Except PyErr (List Char × PyDec) :=
  match lookupKey deposit_data ("IBAN".toList) with
  | none => Except.error (PyErr.am AMErr.invalidKeyInJson)
  | some iv =>
  match lookupKey deposit_data ("AMOUNT".toList) with
  | none => Except.error (PyErr.am AMErr.invalidKeyInJson)
  | some av =>
  match iv with
  | JVal.s deposit_iban =>
    (match validate_iban deposit_iban with
     | Except.error e => Except.error (PyErr.am e)
     | Except.ok validated_iban =>
       match av with
       | JVal.s deposit_amount =>
         if eurAmountMatch deposit_amount then
           (if (eurAmountValue deposit_amount).val = 0 then
             Except.error (PyErr.am AMErr.depositZero)
           else Except.ok (validated_iban, eurAmountValue deposit_amount))
         else Except.error (PyErr.am AMErr.invalidDepositAmount)
       | _ => Except.error PyErr.typeError)
  | _ => Except.error PyErr.typeError

/-- Modelled from the spec: the `AccountDeposit` class is imported by
deposit_manager.py and account_manager.py but its source file is
missing from the repository (the file named account_deposit.py holds
the `TransferRequest` class instead).  Spec section 3 gives its fields
and section 4.4 derives `deposit_signature` as the SHA-256 hexdigest of
a canonical string over them; no claim settled here depends on the
digest, so the signature is carried as that canonical preimage. -/
structure AccountDeposit where
  to_iban : List Char
  deposit_amount : PyDec
  deposit_date : PyDec
  deriving DecidableEq, Repr

/-- Modelled from the spec: the canonical string
`\x7balg:<ALG>,typ:<TYPE>,iban:<IBAN>,amount:<AMOUNT>,deposit_date:<TIMESTAMP>\x7d`
standing in for the SHA-256 signature derived from it. -/
def AccountDeposit.deposit_signature (d : AccountDeposit) : List Char :=
  ("\x7balg:SHA-256,typ:DEPOSIT,iban:".toList) ++ d.to_iban ++
    (",amount:".toList) ++ pyStr d.deposit_amount ++
    (",deposit_date:".toList) ++ pyStr d.deposit_date ++ ("\x7d".toList)

/-- Modelled from the spec: the deposit record schema on disk (spec
section 6). -/
def AccountDeposit.to_json (d : AccountDeposit) : JsonRec :=
  [("alg".toList, JVal.s ("SHA-256".toList)),
   ("type".toList, JVal.s ("DEPOSIT".toList)),
   ("to_iban".toList, JVal.s d.to_iban),
   ("deposit_amount".toList, JVal.n d.deposit_amount.val),
   ("deposit_date".toList, JVal.n d.deposit_date.val),
   ("deposit_signature".toList, JVal.s d.deposit_signature)]

/-- `DepositManager.deposit` (deposit_manager.py lines 77-82): strict
input load, payload validation, deposit construction, append to the
deposit store; failures leave the file system untouched. -/
def deposit_into_account (fs : FS) (input : DepInput) (now_ts : PyDec) :
    Except PyErr (List Char) × FS :=
  match load_json_strict input with
  | Except.error e => (Except.error e, fs)
  | Except.ok deposit_data =>
  match validate_deposit_payload deposit_data with
  | Except.error e => (Except.error e, fs)
  | Except.ok (iban, amount) =>
  match read_json_file fs.deposits with
  | Except.error e => (Except.error e, fs)
  | Except.ok deposit_list =>
    (Except.ok (AccountDeposit.deposit_signature ⟨iban, amount, now_ts⟩),
      { fs with deposits :=
          FileContent.arr (deposit_list ++ [AccountDeposit.to_json ⟨iban, amount, now_ts⟩]) })

/-- The transaction-record key `"IBAN"`. -/
def ibanKey : List Char := "IBAN".toList

/-- The transaction-record key `"amount"`. -/
def amountKey : List Char := "amount".toList

/-- `float(transaction.get("amount", 0))` applied to a present JSON
value: numbers pass through; `None` raises `TypeError`.  (Strings are
parsed by Python `float` when numeric; the transactions schema of spec
section 6 fixes numbers, so strings are modelled as the `ValueError`
case.) -/
def float_of_jval : JVal → Except PyErr ℚ
  | JVal.n q => Except.ok q
  | JVal.s _ => Except.error PyErr.valueError
  | JVal.null => Except.error PyErr.typeError

/-- The transaction loop of `AccountManager.calculate_balance` (lines
175-180): for each record whose `IBAN` equals the queried one, add
`float(record.get("amount", 0))` and set the found flag. -/
def balanceFold (iban : List Char) : List JsonRec → Except PyErr (Bool × ℚ)
  | [] => Except.ok (false, 0)
  | t :: ts =>
    if lookupKey t ibanKey == some (JVal.s iban) then
      match (match lookupKey t amountKey with
             | none => Except.ok (0 : ℚ)
             | some v => float_of_jval v) with
      | Except.error e => Except.error e
      | Except.ok q =>
        match balanceFold iban ts with
        | Except.error e => Except.error e
        | Except.ok p => Except.ok (true, q + p.2)
    else balanceFold iban ts

/-- `AccountManager.calculate_balance` (lines 170-195): validate the
IBAN, read the transactions store with `read_json_file` (missing file
becomes an empty list), sum matching amounts, fail when no record
matched, then append a balance snapshot. -/
def calculate_balance (fs : FS) (iban : List Char) (now_ts : PyDec) :
    Except PyErr Bool × FS :=
  match validate_iban iban with
  | Except.error e => (Except.error (PyErr.am e), fs)
  | Except.ok validated_iban =>
  match read_json_file fs.transactions with
  | Except.error e => (Except.error e, fs)
  | Except.ok transactions =>
  match balanceFold validated_iban transactions with
  | Except.error e => (Except.error e, fs)
  | Except.ok p =>
    if p.1 then
      match read_json_file fs.balances with
      | Except.error e => (Except.error e, fs)
      | Except.ok balance_list =>
        (Except.ok true,
          { fs with balances := FileContent.arr (balance_list ++
            [[("IBAN".toList, JVal.s validated_iban),
              ("time".toList, JVal.n now_ts.val),
              ("BALANCE".toList, JVal.n p.2)]]) })
    else (Except.error (PyErr.am AMErr.ibanNotFound), fs)

/-- `BalanceService._load_transactions` of the dist revision
(target/dist/.../account_manager.py lines 64-68): unlike
`AccountManager.calculate_balance`, a missing transactions file raises
(message "Wrong file  or file path") before the load-or-empty read. -/
def balanceService_load (fs : FS) : Except PyErr (List JsonRec) :=
  match fs.transactions with
  | FileContent.missing => Except.error (PyErr.am AMErr.transactionsFileMissing)
  | c => read_json_file c

/-- `BalanceService.calculate_and_save_balance` of the dist revision
(lines 56-91): as `calculate_balance` but with the strict transactions
load. -/
def balanceService_calculate (fs : FS) (iban : List Char) (now_ts : PyDec) :
    Except PyErr Bool × FS :=
  match validate_iban iban with
  | Except.error e => (Except.error (PyErr.am e), fs)
  | Except.ok validated_iban =>
  match balanceService_load fs with
  | Except.error e => (Except.error e, fs)
  | Except.ok transactions =>
  match balanceFold validated_iban transactions with
  | Except.error e => (Except.error e, fs)
  | Except.ok p =>
    if p.1 then
      match read_json_file fs.balances with
      | Except.error e => (Except.error e, fs)
      | Except.ok balance_list =>
        (Except.ok true,
          { fs with balances := FileContent.arr (balance_list ++
            [[("IBAN".toList, JVal.s validated_iban),
              ("time".toList, JVal.n now_ts.val),
              ("BALANCE".toList, JVal.n p.2)]]) })
    else (Except.error (PyErr.am AMErr.ibanNotFound), fs)

/-- One invocation of any of the three entry points with its
arguments. -/
inductive CallArgs where
  | transferCall (from_iban to_iban concept transfer_type date : List Char)
      (amount : PyDec) (today : PDate) (now_ts : PyDec)
  | depositCall (input : DepInput) (now_ts : PyDec)
  | balanceCall (iban : List Char) (now_ts : PyDec)

/-- Run an entry point against the file system, keeping only the
outcome kind. -/
def runOp (fs : FS) : CallArgs → Except PyErr Unit × FS
  | CallArgs.transferCall f t c ty d a today ts =>
    ((transfer_request fs f t c ty d a today ts).1.map (fun _ => ()),
      (transfer_request fs f t c ty d a today ts).2)
  | CallArgs.depositCall input ts =>
    ((deposit_into_account fs input ts).1.map (fun _ => ()),
      (deposit_into_account fs input ts).2)
  | CallArgs.balanceCall iban ts =>
    ((calculate_balance fs iban ts).1.map (fun _ => ()),
      (calculate_balance fs iban ts).2)

/-- The empty file system: no store file exists yet. -/
def emptyFS : FS :=
  ⟨FileContent.missing, FileContent.missing, FileContent.missing, FileContent.missing⟩

/-- The repository's fixed valid example IBAN. -/
def sampleIban : List Char := "ES9121000418450200051332".toList

/-! Concrete data used to exercise the duplicate check. -/

/-- A minimal valid transfer request value for concrete runs. -/
def sampleRequest : TransferRequest :=
  ⟨"X".toList, "Y".toList, "C".toList, "T".toList, "D".toList,
    ⟨false, 10, 0⟩, ⟨false, 0, 0⟩⟩

/-- A stored record agreeing with `sampleRequest` on all six business
fields. -/
def sampleStoredRec : JsonRec :=
  [("from_iban".toList, JVal.s ("X".toList)),
   ("to_iban".toList, JVal.s ("Y".toList)),
   ("transfer_date".toList, JVal.s ("D".toList)),
   ("transfer_amount".toList, JVal.n 10),
   ("transfer_concept".toList, JVal.s ("C".toList)),
   ("transfer_type".toList, JVal.s ("T".toList))]

/-- A stored record holding only a `from_iban` key, and one differing
from `sampleRequest.from_iban`. -/
def partialStoredRec : JsonRec :=
  [("from_iban".toList, JVal.s ("A".toList))]

/-! ## Theorems -/

/-- Accumulator form of `digitsToNat`. -/
theorem foldl_digits_acc (b : List Char) (acc : Nat) :
    b.foldl (fun a c => 10 * a + digitVal c) acc
      = acc * 10 ^ b.length + b.foldl (fun a c => 10 * a + digitVal c) 0 := by
  induction b generalizing acc with
  | nil => simp
  | cons c cs ih =>
    simp only [List.foldl_cons, List.length_cons]
    rw [ih (10 * acc + digitVal c), ih (10 * 0 + digitVal c)]
    ring

/-- `digitsToNat` of a concatenation. -/
theorem digitsToNat_append (a b : List Char) :
    digitsToNat (a ++ b) = digitsToNat a * 10 ^ b.length + digitsToNat b := by
  unfold digitsToNat
  rw [List.foldl_append]
  exact foldl_digits_acc b _

/-- The letter-substitution pass leaves a digit string unchanged. -/
theorem replaceLetters_digits (l : List Char) (h : ∀ c ∈ l, isDigitCh c = true) :
    replaceLetters l = l := by
  induction l with
  | nil => rfl
  | cons c cs ih =>
    have hc : isDigitCh c = true := h c (by simp)
    have hnl : ('A' ≤ c && c ≤ 'Z') = false := by
      simp only [isDigitCh, Bool.and_eq_true, decide_eq_true_eq] at hc
      have h9 : c < 'A' := lt_of_le_of_lt hc.2 (by decide)
      simp [not_le.mpr h9]
    have hcond : ¬ (('A' ≤ c && c ≤ 'Z') = true) := by simp [hnl]
    unfold replaceLetters
    simp only [List.flatMap_cons]
    rw [if_neg hcond]
    have hrest := ih (fun d hd => h d (List.mem_cons_of_mem _ hd))
    unfold replaceLetters at hrest
    rw [hrest, List.singleton_append]

/-- The regex format test agrees with the specification reading. -/
theorem ibanFormat_iff (s : List Char) : ibanFormatMatch s = true ↔ specIbanFormat s := by
  rcases s with _ | ⟨c, _ | ⟨d, rest⟩⟩
  · simp [ibanFormatMatch, specIbanFormat]
  · simp [ibanFormatMatch, specIbanFormat]
  · simp only [ibanFormatMatch, specIbanFormat, Bool.and_eq_true, beq_iff_eq,
      List.all_eq_true, List.length_cons, List.take_succ_cons, List.take_zero,
      List.drop_succ_cons, List.drop_zero]
    constructor
    · rintro ⟨⟨⟨hc, hd⟩, hlen⟩, hall⟩
      exact ⟨by omega, by rw [hc, hd], hall⟩
    · rintro ⟨hlen, htake, hall⟩
      simp only [List.cons.injEq, and_true] at htake
      exact ⟨⟨⟨htake.1, htake.2⟩, by omega⟩, hall⟩

/-- Shape extraction from a successful format match. -/
theorem ibanFormat_shape (s : List Char) (h : ibanFormatMatch s = true) :
    ∃ rest, s = 'E' :: 'S' :: rest ∧ rest.length = 22 ∧ ∀ c ∈ rest, isDigitCh c = true := by
  rcases s with _ | ⟨c, _ | ⟨d, rest⟩⟩
  · simp [ibanFormatMatch] at h
  · simp [ibanFormatMatch] at h
  · simp only [ibanFormatMatch, Bool.and_eq_true, beq_iff_eq, List.all_eq_true] at h
    obtain ⟨⟨⟨hc, hd⟩, hlen⟩, hall⟩ := h
    exact ⟨rest, by rw [hc, hd], hlen, hall⟩

/-- On a well-formed IBAN the numeric rewrite computes exactly the
spec's big integer N. -/
theorem ibanNumeric_eq_spec (rest : List Char)
    (hall : ∀ c ∈ rest, isDigitCh c = true) :
    ibanNumeric ('E' :: 'S' :: rest) = specIbanN ('E' :: 'S' :: rest) := by
  have hshape : ibanRewritten ('E' :: 'S' :: rest) = rest.drop 2 ++ ['E', 'S', '0', '0'] := by
    simp [ibanRewritten]
  have hdrop : ∀ c ∈ rest.drop 2, isDigitCh c = true :=
    fun c hc => hall c (List.drop_subset 2 rest hc)
  unfold ibanNumeric
  rw [hshape]
  have hsplit : replaceLetters (rest.drop 2 ++ ['E', 'S', '0', '0'])
      = replaceLetters (rest.drop 2) ++ replaceLetters ['E', 'S', '0', '0'] := by
    simp [replaceLetters]
  rw [hsplit, replaceLetters_digits _ hdrop]
  have htail : replaceLetters ['E', 'S', '0', '0'] = ['1', '4', '2', '8', '0', '0'] := by decide
  rw [htail, digitsToNat_append]
  have : digitsToNat ['1', '4', '2', '8', '0', '0'] = 142800 := by decide
  rw [this]
  simp [specIbanN]

/-- Full characterization of `validate_iban` against the spec-side
format and checksum predicates. -/
theorem validate_iban_characterization (s : List Char) :
    validate_iban s =
      (if specIbanFormat s then
        (if specIbanChecksum s then Except.ok s
         else Except.error AMErr.invalidIbanControlDigit)
       else Except.error AMErr.invalidIbanFormat) := by
  by_cases hf : ibanFormatMatch s = true
  · have hspec : specIbanFormat s := (ibanFormat_iff s).mp hf
    obtain ⟨rest, rfl, hlen, hall⟩ := ibanFormat_shape s hf
    rw [if_pos hspec]
    unfold validate_iban
    rw [if_pos hf, ibanNumeric_eq_spec rest hall]
    by_cases hc : specIbanChecksum ('E' :: 'S' :: rest)
    · rw [if_pos hc]
      unfold specIbanChecksum at hc
      rw [if_pos hc]
    · rw [if_neg hc]
      unfold specIbanChecksum at hc
      rw [if_neg hc]
  · have hspec : ¬ specIbanFormat s := fun h => hf ((ibanFormat_iff s).mpr h)
    unfold validate_iban
    rw [if_neg hf, if_neg hspec]

/-- C1: `validate_iban` succeeds exactly on strings of the form `ES`
followed by 22 digits whose check digits equal `98 - (N mod 97)` for
the spec's big integer N, returning the input unchanged; a format
mismatch yields the invalid-format error and a checksum mismatch the
control-digit error. -/
theorem C1_iban_validate (s : List Char) :
    validate_iban s =
      (if specIbanFormat s then
        (if specIbanChecksum s then Except.ok s
         else Except.error AMErr.invalidIbanControlDigit)
       else Except.error AMErr.invalidIbanFormat) :=
  validate_iban_characterization s

/-- C2 counterexample: the date 01/01/2020 (year 2020, outside
[2025, 2050]) does not fail with the year-range error; it is strictly
before today (2026-10-12) and the past-date check runs first, so it
fails with the past-date error instead. -/
theorem C2_counterexample :
    validate_transfer_date ⟨2026, 10, 12⟩ ("01/01/2020".toList)
        = Except.error AMErr.pastDate ∧
      AMErr.pastDate ≠ AMErr.invalidDateYear := by
  constructor
  · rfl
  · decide

/-- C2 amended: for a date string in valid DD/MM/YYYY shape that parses
as a real calendar date and is not strictly before today, a calendar
year outside [2025, 2050] fails with the year-range error (a date
strictly before today fails with the past-date error first, as the
counterexample 01/01/2020 shows). -/
theorem C2_year_range (today : PDate) (s : List Char) (d : PDate)
    (hshape : dateShapeMatch s = true)
    (hparse : strptimeDMY s = some d)
    (hnotpast : dateLtB d today = false)
    (hyear : d.year < 2025 ∨ 2050 < d.year) :
    validate_transfer_date today s = Except.error AMErr.invalidDateYear := by
  unfold validate_transfer_date
  rw [if_pos hshape, hparse]
  simp only [hnotpast, Bool.false_eq_true, if_false]
  rw [if_pos (by omega : d.year < 2025 ∨ d.year > 2050)]

/-- C2 witness: the future date 01/01/2051 (year 2051 > 2050) fails
with the year-range error when today is 2026-10-12. -/
theorem C2_year_range_witness :
    validate_transfer_date ⟨2026, 10, 12⟩ ("01/01/2051".toList)
      = Except.error AMErr.invalidDateYear :=
  C2_year_range ⟨2026, 10, 12⟩ ("01/01/2051".toList) ⟨2051, 1, 1⟩
    (by decide) (by decide) (by decide) (by decide)

/-- `stripZeros` preserves the decimal value. -/
theorem stripZeros_val (s u : Nat) :
    ((stripZeros u s).1 : ℚ) / 10 ^ (stripZeros u s).2 = (u : ℚ) / 10 ^ s := by
  induction s generalizing u with
  | zero => rfl
  | succ t ih =>
    by_cases h : u % 10 = 0
    · have hdvd : 10 ∣ u := Nat.dvd_of_mod_eq_zero h
      have hcast : (u : ℚ) = 10 * ((u / 10 : Nat) : ℚ) := by
        obtain ⟨m, rfl⟩ := hdvd
        push_cast [Nat.mul_div_cancel_left m (by norm_num : 0 < 10)]
        ring
      simp only [stripZeros, h, if_true]
      rw [ih (u / 10), hcast]
      rw [pow_succ]
      field_simp
      left
      ring
    · simp only [stripZeros, if_neg h]

/-- `stripZeros` results are minimal: zero scale or last digit nonzero. -/
theorem stripZeros_min (s u : Nat) :
    (stripZeros u s).2 = 0 ∨ (stripZeros u s).1 % 10 ≠ 0 := by
  induction s generalizing u with
  | zero => exact Or.inl rfl
  | succ t ih =>
    by_cases h : u % 10 = 0
    · simp only [stripZeros, h, if_pos rfl]
      exact ih (u / 10)
    · simp only [stripZeros, if_neg h]
      exact Or.inr h

/-- Normalization preserves the rational value. -/
theorem pyNorm_val (d : PyDec) : (pyNorm d).val = d.val := by
  unfold pyNorm PyDec.val
  simp only
  rw [mul_div_assoc, mul_div_assoc, stripZeros_val]

/-- Normalization is idempotent (a float is already canonical). -/
theorem pyNorm_idem (d : PyDec) : pyNorm (pyNorm d) = pyNorm d := by
  unfold pyNorm
  rcases stripZeros_min d.scale d.units with h | h
  · simp only
    rcases hp : stripZeros d.units d.scale with ⟨u1, s1⟩
    have hs1 : s1 = 0 := by rw [hp] at h; exact h
    subst hs1
    rfl
  · simp only
    rcases hp : stripZeros d.units d.scale with ⟨u1, s1⟩
    rw [hp] at h
    simp only at h
    cases s1 with
    | zero => rfl
    | succ t => simp only [stripZeros, if_neg h]

/-- Every character of `natDigitsRev` is a decimal digit. -/
theorem natDigitsRev_digits (fuel : Nat) :
    ∀ n, ∀ c ∈ natDigitsRev fuel n, isDigitCh c = true := by
  induction fuel with
  | zero => intro n c hc; simp [natDigitsRev] at hc
  | succ f ih =>
    intro n c hc
    by_cases h : n = 0
    · simp [natDigitsRev, h] at hc
    · simp only [natDigitsRev, if_neg h, List.mem_cons] at hc
      rcases hc with rfl | hc
      · have hr : n % 10 < 10 := Nat.mod_lt n (by omega)
        set r := n % 10 with hrdef
        interval_cases r <;> decide
      · exact ih (n / 10) c hc

/-- Every character of `natToDigits` is a decimal digit. -/
theorem natToDigits_digits (n : Nat) :
    ∀ c ∈ natToDigits n, isDigitCh c = true := by
  intro c hc
  unfold natToDigits at hc
  by_cases h : n = 0
  · rw [if_pos h] at hc; simp at hc; subst hc; decide
  · rw [if_neg h, List.mem_reverse] at hc
    exact natDigitsRev_digits n n c hc

/-- Digit-count bound for `natDigitsRev`. -/
theorem natDigitsRev_length_le (fuel : Nat) :
    ∀ n k, n < 10 ^ k → (natDigitsRev fuel n).length ≤ k := by
  induction fuel with
  | zero => intro n k _; simp [natDigitsRev]
  | succ f ih =>
    intro n k hk
    by_cases h : n = 0
    · simp [natDigitsRev, h]
    · cases k with
      | zero => simp at hk; omega
      | succ j =>
        simp only [natDigitsRev, if_neg h, List.length_cons]
        have hdiv : n / 10 < 10 ^ j := by
          rw [Nat.div_lt_iff_lt_mul (by omega : 0 < 10)]
          calc n < 10 ^ (j + 1) := hk
            _ = 10 ^ j * 10 := by ring
        have := ih (n / 10) j hdiv
        omega

/-- Digit-count bound for `natToDigits`. -/
theorem natToDigits_length_le (n k : Nat) (hk : 1 ≤ k) (h : n < 10 ^ k) :
    (natToDigits n).length ≤ k := by
  unfold natToDigits
  by_cases h0 : n = 0
  · rw [if_pos h0]; simpa using hk
  · rw [if_neg h0, List.length_reverse]
    exact natDigitsRev_length_le n n k h

/-- Length of a zero-padded digit string. -/
theorem padLeftZeros_length (l : List Char) (n : Nat) (h : l.length ≤ n) :
    (padLeftZeros l n).length = n := by
  simp [padLeftZeros]
  omega

/-- `dropWhile` skips a prefix on which the predicate holds. -/
theorem dropWhile_append_all (p : Char → Bool) (a b : List Char)
    (h : ∀ c ∈ a, p c = true) :
    (a ++ b).dropWhile p = b.dropWhile p := by
  induction a with
  | nil => rfl
  | cons c cs ih =>
    have hc := h c (by simp)
    simp only [List.cons_append, List.dropWhile_cons, hc, if_pos rfl]
    exact ih (fun d hd => h d (List.mem_cons_of_mem _ hd))

/-- The dot is present in every printed float. -/
theorem pyStr_hasDot (d : PyDec) : '.' ∈ pyStr d := by
  unfold pyStr
  simp

/-- `split('.')[1]` of a printed float is exactly its fractional digit
string. -/
theorem afterDot_pyStr (d : PyDec) :
    afterDot (pyStr d) =
      (if (pyNorm d).scale = 0 then ['0']
       else padLeftZeros (natToDigits ((pyNorm d).units % 10 ^ (pyNorm d).scale))
              (pyNorm d).scale) := by
  have hsign : ∀ c ∈ (if (pyNorm d).neg then ['-'] else ([] : List Char)),
      (c != '.') = true := by
    intro c hc
    by_cases hn : (pyNorm d).neg = true <;> simp [hn] at hc
    subst hc; decide
  have hdig : ∀ c ∈ natToDigits ((pyNorm d).units / 10 ^ (pyNorm d).scale),
      (c != '.') = true := by
    intro c hc
    have hd := natToDigits_digits _ c hc
    simp only [isDigitCh, Bool.and_eq_true, decide_eq_true_eq] at hd
    have hlt : '.' < c := lt_of_lt_of_le (by decide : '.' < '0') hd.1
    simpa [bne_iff_ne] using ne_of_gt hlt
  unfold afterDot pyStr
  simp only [List.append_assoc]
  rw [dropWhile_append_all _ _ _ hsign, dropWhile_append_all _ _ _ hdig,
    List.singleton_append, List.dropWhile_cons]
  simp

/-- Length of the printed fractional part: 1 for integral values,
otherwise the minimal scale. -/
theorem afterDot_length (d : PyDec) :
    (afterDot (pyStr d)).length =
      (if (pyNorm d).scale = 0 then 1 else (pyNorm d).scale) := by
  rw [afterDot_pyStr]
  by_cases h : (pyNorm d).scale = 0
  · rw [if_pos h, if_pos h]; rfl
  · rw [if_neg h, if_neg h]
    refine padLeftZeros_length _ _ ?_
    refine natToDigits_length_le _ _ (by omega) ?_
    exact Nat.mod_lt _ (Nat.pos_pow_of_pos _ (by omega))

/-- A decimal value is an integer multiple of 0.01 exactly when its
minimal form has scale at most 2. -/
theorem cents_iff (d : PyDec) : centsIntegral d.val ↔ (pyNorm d).scale ≤ 2 := by
  have hval : d.val = (if (pyNorm d).neg then (-1 : ℚ) else 1) *
      ((pyNorm d).units : ℚ) / 10 ^ (pyNorm d).scale := by
    rw [← pyNorm_val]; rfl
  have h10 : ((10 : ℚ) ^ (pyNorm d).scale) ≠ 0 := by positivity
  constructor
  · rintro ⟨n, hn⟩
    by_contra hs
    push_neg at hs
    have hmin : (pyNorm d).units % 10 ≠ 0 := by
      rcases stripZeros_min d.scale d.units with h | h
      · exfalso
        have : (pyNorm d).scale = 0 := h
        omega
      · exact h
    rw [hval] at hn
    by_cases hb : (pyNorm d).neg = true
    · rw [if_pos hb] at hn
      have hq : (-((pyNorm d).units : ℚ)) * 100 = (n : ℚ) * 10 ^ (pyNorm d).scale := by
        field_simp at hn
        linarith
      have hz : (-((pyNorm d).units : ℤ)) * 100 = n * 10 ^ (pyNorm d).scale := by
        exact_mod_cast hq
      have hdvd : (1000 : ℤ) ∣ ((pyNorm d).units : ℤ) * 100 := by
        have h1 : (1000 : ℤ) ∣ 10 ^ (pyNorm d).scale := by
          have he : (10 : ℤ) ^ (pyNorm d).scale = 10 ^ 3 * 10 ^ ((pyNorm d).scale - 3) := by
            rw [← pow_add]
            congr 1
            omega
          exact ⟨10 ^ ((pyNorm d).scale - 3), by rw [he]; norm_num⟩
        have h2 : (1000 : ℤ) ∣ n * 10 ^ (pyNorm d).scale := Dvd.dvd.mul_left h1 n
        rw [← hz] at h2
        exact (dvd_neg.mp (by simpa [neg_mul] using h2))
      obtain ⟨k, hk⟩ := hdvd
      omega
    · rw [if_neg hb] at hn
      have hq : (((pyNorm d).units : ℚ)) * 100 = (n : ℚ) * 10 ^ (pyNorm d).scale := by
        field_simp at hn
        linarith
      have hz : (((pyNorm d).units : ℤ)) * 100 = n * 10 ^ (pyNorm d).scale := by
        exact_mod_cast hq
      have hdvd : (1000 : ℤ) ∣ ((pyNorm d).units : ℤ) * 100 := by
        have h1 : (1000 : ℤ) ∣ 10 ^ (pyNorm d).scale := by
          have he : (10 : ℤ) ^ (pyNorm d).scale = 10 ^ 3 * 10 ^ ((pyNorm d).scale - 3) := by
            rw [← pow_add]
            congr 1
            omega
          exact ⟨10 ^ ((pyNorm d).scale - 3), by rw [he]; norm_num⟩
        rw [hz]
        exact Dvd.dvd.mul_left h1 n
      obtain ⟨k, hk⟩ := hdvd
      omega
  · intro hs
    refine ⟨(if (pyNorm d).neg then -((pyNorm d).units : ℤ) else (pyNorm d).units) *
      10 ^ (2 - (pyNorm d).scale), ?_⟩
    have hexp : (pyNorm d).scale + (2 - (pyNorm d).scale) = 2 := by omega
    have h100 : (100 : ℚ) = 10 ^ (pyNorm d).scale * 10 ^ (2 - (pyNorm d).scale) := by
      rw [← pow_add, hexp]
      norm_num
    rw [hval, h100]
    by_cases hb : (pyNorm d).neg = true <;> simp only [hb, if_true, if_false,
      Bool.false_eq_true] <;> push_cast <;> field_simp <;> ring

/-- The code's string-length test on `str(float(amount))` is exactly
the value-based two-fractional-digits test. -/
theorem validate_amount_frac_iff (a : PyDec) :
    (('.' ∈ pyStr (pyNorm a)) ∧ 2 < (afterDot (pyStr (pyNorm a))).length) ↔
      ¬ centsIntegral a.val := by
  rw [cents_iff, afterDot_length, pyNorm_idem]
  constructor
  · rintro ⟨-, hlen⟩
    by_cases h0 : (pyNorm a).scale = 0
    · rw [if_pos h0] at hlen; omega
    · rw [if_neg h0] at hlen; omega
  · intro h
    refine ⟨pyStr_hasDot _, ?_⟩
    by_cases h0 : (pyNorm a).scale = 0
    · omega
    · rw [if_neg h0]; omega

/-- C3 counterexample: the input 10.000 has three textual fractional
digits, yet `validate_amount` accepts it (the length test is applied to
`str(float(amount))`, which is `"10.0"`), returning the float 10.0 —
the claim's textual reading would demand an invalid-amount-format
failure. -/
theorem C3_counterexample :
    (⟨false, 10000, 3⟩ : PyDec).scale = 3 ∧
      validate_amount ⟨false, 10000, 3⟩ = Except.ok ⟨false, 10, 0⟩ := by
  refine ⟨rfl, ?_⟩
  have hnorm : pyNorm ⟨false, 10000, 3⟩ = ⟨false, 10, 0⟩ := by decide
  unfold validate_amount
  rw [if_neg (by decide)]
  rw [hnorm]
  rw [if_neg (by norm_num [PyDec.val])]

/-- C3 amended: the more-than-two-fractional-digits rejection is a
check on the numeric value of the parsed float (it fails exactly when
the value is not an integer multiple of 0.01), not a textual check on
the input; for values with at most two fractional digits, validation
succeeds iff the value lies in [10, 10000], failing with the
out-of-range error otherwise. -/
theorem C3_value_check (a : PyDec) :
    (validate_amount a = Except.error AMErr.invalidAmountFrac ↔ ¬ centsIntegral a.val) ∧
    (centsIntegral a.val →
      validate_amount a =
        (if a.val < 10 ∨ 10000 < a.val then Except.error AMErr.amountOutOfRange
         else Except.ok (pyNorm a))) := by
  have hfrac := validate_amount_frac_iff a
  constructor
  · by_cases hc : centsIntegral a.val
    · have hnc : ¬ (('.' ∈ pyStr (pyNorm a)) ∧ 2 < (afterDot (pyStr (pyNorm a))).length) :=
        fun hcond => (hfrac.mp hcond) hc
      unfold validate_amount
      rw [if_neg hnc]
      constructor
      · intro h
        by_cases hr : (pyNorm a).val < 10 ∨ 10000 < (pyNorm a).val
        · rw [if_pos hr] at h; simp at h
        · rw [if_neg hr] at h; simp at h
      · intro h; exact absurd hc h
    · have hyc := hfrac.mpr hc
      unfold validate_amount
      rw [if_pos hyc]
      simp [hc]
  · intro hc
    have hnc : ¬ (('.' ∈ pyStr (pyNorm a)) ∧ 2 < (afterDot (pyStr (pyNorm a))).length) :=
      fun hcond => (hfrac.mp hcond) hc
    unfold validate_amount
    rw [if_neg hnc]
    by_cases hr : a.val < 10 ∨ 10000 < a.val
    · have hr2 : (pyNorm a).val < 10 ∨ 10000 < (pyNorm a).val := by
        rw [pyNorm_val]; exact hr
      rw [if_pos hr2, if_pos hr]
    · have hr2 : ¬ ((pyNorm a).val < 10 ∨ 10000 < (pyNorm a).val) := by
        rw [pyNorm_val]; exact hr
      rw [if_neg hr2, if_neg hr]

/-- C3 witness: 10.5 is an integer multiple of 0.01 and in range, and
`validate_amount` accepts it. -/
theorem C3_value_check_witness :
    centsIntegral (PyDec.val ⟨false, 105, 1⟩) ∧
      validate_amount ⟨false, 105, 1⟩ = Except.ok ⟨false, 105, 1⟩ := by
  have hc : centsIntegral (PyDec.val ⟨false, 105, 1⟩) :=
    ⟨1050, by norm_num [PyDec.val]⟩
  refine ⟨hc, ?_⟩
  have h := (C3_value_check ⟨false, 105, 1⟩).2 hc
  rw [h]
  have hval : (⟨false, 105, 1⟩ : PyDec).val = 105 / 10 := by
    norm_num [PyDec.val]
  rw [if_neg (by rw [hval]; norm_num)]
  rfl

/-- `jeqStr` decides equality with a string value. -/
theorem jeqStr_iff (v : JVal) (w : List Char) : jeqStr v w = true ↔ v = JVal.s w := by
  cases v <;> simp [jeqStr]

/-- `jeqNum` decides equality with a float value. -/
theorem jeqNum_iff (v : JVal) (q : ℚ) : jeqNum v q = true ↔ v = JVal.n q := by
  cases v <;> simp [jeqNum]

/-- On a record holding all six keys, the short-circuit comparison of
`is_duplicate_transfer` returns exactly the six-field match, with no
key error. -/
theorem recordMatches_eq (t : JsonRec) (r : TransferRequest) (h : HasSixKeys t) :
    recordMatches t r = Except.ok (decide (MatchesSix t r)) := by
  obtain ⟨h1, h2, h3, h4, h5, h6⟩ := h
  obtain ⟨v1, hv1⟩ := Option.isSome_iff_exists.mp h1
  obtain ⟨v2, hv2⟩ := Option.isSome_iff_exists.mp h2
  obtain ⟨v3, hv3⟩ := Option.isSome_iff_exists.mp h3
  obtain ⟨v4, hv4⟩ := Option.isSome_iff_exists.mp h4
  obtain ⟨v5, hv5⟩ := Option.isSome_iff_exists.mp h5
  obtain ⟨v6, hv6⟩ := Option.isSome_iff_exists.mp h6
  have hm : MatchesSix t r ↔ (v1 = JVal.s r.from_iban ∧ v2 = JVal.s r.to_iban ∧
      v3 = JVal.s r.transfer_date ∧ v4 = JVal.n r.transfer_amount.val ∧
      v5 = JVal.s r.transfer_concept ∧ v6 = JVal.s r.transfer_type) := by
    unfold MatchesSix
    rw [hv1, hv2, hv3, hv4, hv5, hv6]
    simp
  unfold recordMatches
  simp only [getKey, hv1, hv2, hv3, hv4, hv5, hv6]
  by_cases e1 : jeqStr v1 r.from_iban = true
  case neg =>
    rw [if_neg e1, decide_eq_false (fun hp => e1 ((jeqStr_iff _ _).mpr (hm.mp hp).1))]
  rw [if_pos e1]
  by_cases e2 : jeqStr v2 r.to_iban = true
  case neg =>
    rw [if_neg e2, decide_eq_false (fun hp => e2 ((jeqStr_iff _ _).mpr (hm.mp hp).2.1))]
  rw [if_pos e2]
  by_cases e3 : jeqStr v3 r.transfer_date = true
  case neg =>
    rw [if_neg e3, decide_eq_false (fun hp => e3 ((jeqStr_iff _ _).mpr (hm.mp hp).2.2.1))]
  rw [if_pos e3]
  by_cases e4 : jeqNum v4 r.transfer_amount.val = true
  case neg =>
    rw [if_neg e4, decide_eq_false (fun hp => e4 ((jeqNum_iff _ _).mpr (hm.mp hp).2.2.2.1))]
  rw [if_pos e4]
  by_cases e5 : jeqStr v5 r.transfer_concept = true
  case neg =>
    rw [if_neg e5,
      decide_eq_false (fun hp => e5 ((jeqStr_iff _ _).mpr (hm.mp hp).2.2.2.2.1))]
  rw [if_pos e5]
  by_cases e6 : jeqStr v6 r.transfer_type = true
  · rw [e6, decide_eq_true (hm.mpr ⟨(jeqStr_iff _ _).mp e1, (jeqStr_iff _ _).mp e2,
      (jeqStr_iff _ _).mp e3, (jeqNum_iff _ _).mp e4, (jeqStr_iff _ _).mp e5,
      (jeqStr_iff _ _).mp e6⟩)]
  · rw [Bool.eq_false_iff.mpr e6,
      decide_eq_false (fun hp => e6 ((jeqStr_iff _ _).mpr (hm.mp hp).2.2.2.2.2))]

/-- On a store of records with all six keys, the duplicate scan decides
existence of a full six-field match. -/
theorem is_duplicate_eq (store : List JsonRec) (r : TransferRequest)
    (h : ∀ t ∈ store, HasSixKeys t) :
    is_duplicate_transfer store r = Except.ok (decide (∃ t ∈ store, MatchesSix t r)) := by
  induction store with
  | nil =>
    have hno : ¬ ∃ t ∈ ([] : List JsonRec), MatchesSix t r := by
      rintro ⟨t, ht, -⟩
      exact absurd ht (List.not_mem_nil t)
    rw [decide_eq_false hno]
    rfl
  | cons t ts ih =>
    have ht := h t (by simp)
    have hts := ih (fun x hx => h x (List.mem_cons_of_mem _ hx))
    unfold is_duplicate_transfer
    rw [recordMatches_eq t r ht]
    by_cases hmt : MatchesSix t r
    · rw [decide_eq_true hmt]
      have hyes : ∃ x ∈ t :: ts, MatchesSix x r := ⟨t, by simp, hmt⟩
      rw [decide_eq_true hyes]
    · rw [decide_eq_false hmt]
      have hiff : (∃ x ∈ ts, MatchesSix x r) ↔ (∃ x ∈ t :: ts, MatchesSix x r) := by
        constructor
        · rintro ⟨x, hx, hm2⟩
          exact ⟨x, List.mem_cons_of_mem _ hx, hm2⟩
        · rintro ⟨x, hx, hm2⟩
          rcases List.mem_cons.mp hx with rfl | hx2
          · exact absurd hm2 hmt
          · exact ⟨x, hx2, hm2⟩
      show is_duplicate_transfer ts r
        = Except.ok (decide (∃ x ∈ t :: ts, MatchesSix x r))
      rw [hts, decide_eq_decide.mpr hiff]

/-- C4: on a transfer store whose records carry the six business keys,
the store phase of `transfer_request` fails with the duplicate error
and leaves the store unchanged exactly when some stored record matches
the request on all six of from/to/date/amount/concept/type (timestamp
excluded); otherwise exactly one record (the request's JSON form) is
appended. -/
theorem C4_duplicate_detection (store : List JsonRec) (r : TransferRequest)
    (h : ∀ t ∈ store, HasSixKeys t) :
    (((transfer_store_phase store r).1
          = Except.error (PyErr.am AMErr.duplicatedTransfer) ∧
        (transfer_store_phase store r).2 = store)
      ↔ ∃ t ∈ store, MatchesSix t r) ∧
    ((¬ ∃ t ∈ store, MatchesSix t r) →
      (transfer_store_phase store r).1 = Except.ok r.transfer_code ∧
      (transfer_store_phase store r).2 = store ++ [r.to_json] ∧
      (transfer_store_phase store r).2.length = store.length + 1) := by
  have hd := is_duplicate_eq store r h
  unfold transfer_store_phase
  rw [hd]
  by_cases hex : ∃ t ∈ store, MatchesSix t r
  · rw [decide_eq_true hex]
    exact ⟨⟨fun _ => hex, fun _ => ⟨rfl, rfl⟩⟩, fun hn => absurd hex hn⟩
  · rw [decide_eq_false hex]
    refine ⟨⟨fun hcon => absurd hcon.1 (by simp), fun hcon => absurd hcon hex⟩,
      fun _ => ⟨rfl, rfl, by simp⟩⟩

/-- C4 witness: resubmitting `sampleRequest` against a store already
holding a record with identical six business fields fails with the
duplicate error and leaves the store unchanged. -/
theorem C4_duplicate_detection_witness :
    (transfer_store_phase [sampleStoredRec] sampleRequest).1
        = Except.error (PyErr.am AMErr.duplicatedTransfer) ∧
      (transfer_store_phase [sampleStoredRec] sampleRequest).2 = [sampleStoredRec] := by
  have hkeys : ∀ t ∈ [sampleStoredRec], HasSixKeys t := by
    intro t ht
    simp only [List.mem_singleton] at ht
    subst ht
    decide
  have hval : (PyDec.val ⟨false, 10, 0⟩) = 10 := by norm_num [PyDec.val]
  have hmatch : MatchesSix sampleStoredRec sampleRequest := by
    unfold MatchesSix sampleStoredRec sampleRequest
    refine ⟨by decide, by decide, by decide, ?_, by decide, by decide⟩
    show lookupKey _ _ = some (JVal.n (PyDec.val ⟨false, 10, 0⟩))
    rw [hval]
    decide
  exact (C4_duplicate_detection [sampleStoredRec] sampleRequest hkeys).1.mpr
    ⟨sampleStoredRec, by simp, hmatch⟩

/-- C10 counterexample: a stored record lacking five of the six keys
does not make the duplicate check raise a key error when its
`from_iban` differs from the request's — the short-circuit `and` stops
before any missing key is read, so `Submit` is total on this store even
though the claim's precondition fails. -/
theorem C10_counterexample :
    (¬ HasSixKeys partialStoredRec) ∧
      is_duplicate_transfer [partialStoredRec] sampleRequest = Except.ok false := by
  constructor
  · decide
  · decide

/-- C10 amended: if every stored record carries the six compared keys
the duplicate check returns a boolean and never a key error; a stored
record lacking a key raises an unhandled `KeyError` (not a typed
`AccountManagementException`) only when the comparison reaches that
key — in particular a record with no keys at all makes the store phase
raise `KeyError("from_iban")`. -/
theorem C10_totality (store : List JsonRec) (r : TransferRequest)
    (h : ∀ t ∈ store, HasSixKeys t) :
    (∃ b : Bool, is_duplicate_transfer store r = Except.ok b) ∧
    ((transfer_store_phase [([] : JsonRec)] r).1
        = Except.error (PyErr.keyError ("from_iban".toList)) ∧
      ∀ e : AMErr, PyErr.keyError ("from_iban".toList) ≠ PyErr.am e) := by
  refine ⟨⟨decide (∃ t ∈ store, MatchesSix t r), is_duplicate_eq store r h⟩, rfl, ?_⟩
  intro e hcon
  exact PyErr.noConfusion hcon

/-- C10 witness: on the well-keyed singleton store the duplicate check
returns a boolean (and the empty-record store raises the key error). -/
theorem C10_totality_witness :
    (∃ b : Bool, is_duplicate_transfer [sampleStoredRec] sampleRequest = Except.ok b) ∧
    ((transfer_store_phase [([] : JsonRec)] sampleRequest).1
        = Except.error (PyErr.keyError ("from_iban".toList)) ∧
      ∀ e : AMErr, PyErr.keyError ("from_iban".toList) ≠ PyErr.am e) :=
  C10_totality [sampleStoredRec] sampleRequest (by
    intro t ht
    simp only [List.mem_singleton] at ht
    subst ht
    decide)

/-- `leBytes` produces exactly `k` bytes. -/
theorem leBytes_length (k : Nat) : ∀ n, (leBytes n k).length = k := by
  induction k with
  | zero => intro n; rfl
  | succ j ih => intro n; simp [leBytes, ih]

/-- `leBytes` bytes are below 256. -/
theorem leBytes_lt (k : Nat) : ∀ n, ∀ b ∈ leBytes n k, b < 256 := by
  induction k with
  | zero => intro n b hb; simp [leBytes] at hb
  | succ j ih =>
    intro n b hb
    simp only [leBytes, List.mem_cons] at hb
    rcases hb with rfl | hb
    · exact Nat.mod_lt _ (by omega)
    · exact ih (n / 256) b hb

/-- The MD5 digest is 16 bytes, each below 256. -/
theorem md5Digest_shape (msg : List Nat) :
    (md5Digest msg).length = 16 ∧ ∀ b ∈ md5Digest msg, b < 256 := by
  unfold md5Digest
  constructor
  · simp [leBytes_length]
  · intro b hb
    simp only [List.mem_append] at hb
    rcases hb with ((hb | hb) | hb) | hb <;> exact leBytes_lt 4 _ b hb

/-- Two hex characters per byte. -/
theorem bytesToHexChars_length (bs : List Nat) :
    (bytesToHexChars bs).length = 2 * bs.length := by
  induction bs with
  | nil => rfl
  | cons b rest ih => simp [bytesToHexChars, ih]; ring

/-- Hex characters of bytes below 256 are lower-case hex digits. -/
theorem bytesToHexChars_hex (bs : List Nat) (h : ∀ b ∈ bs, b < 256) :
    ∀ c ∈ bytesToHexChars bs, isHexLowerCh c = true := by
  induction bs with
  | nil => intro c hc; simp [bytesToHexChars] at hc
  | cons b rest ih =>
    intro c hc
    have hb : b < 256 := h b (by simp)
    have hdig : ∀ m : Nat, m < 16 → isHexLowerCh (hexCharLower m) = true := by
      intro m hm
      interval_cases m <;> decide
    simp only [bytesToHexChars, List.mem_cons] at hc
    rcases hc with rfl | rfl | hc
    · exact hdig _ (by omega)
    · exact hdig _ (Nat.mod_lt _ (by omega))
    · exact ih (fun x hx => h x (List.mem_cons_of_mem _ hx)) c hc

/-- The MD5 hexdigest of any string is 32 lower-case hex characters. -/
theorem md5HexOfString_shape (s : List Char) :
    (md5HexOfString s).length = 32 ∧
      ∀ c ∈ md5HexOfString s, isHexLowerCh c = true := by
  obtain ⟨hlen, hlt⟩ := md5Digest_shape (strToBytes s)
  constructor
  · rw [md5HexOfString, bytesToHexChars_length, hlen]
  · exact bytesToHexChars_hex _ hlt

set_option maxRecDepth 100000 in
/-- The embedded MD5 agrees with the RFC 1321 test vector for "abc"
(and with `hashlib.md5` there). -/
theorem md5_abc_vector :
    md5HexOfString ("abc".toList) = ("900150983cd24fb0d6963f7d28e17f72".toList) := by
  decide

/-- C5: the transfer code is the MD5 hexdigest of the unseparated
concatenation of from-IBAN, to-IBAN, timestamp and amount (floats in
`str` form); it is 32 lower-case hex characters; any two requests
agreeing on those four fields — whatever their concept, date or type —
have equal codes, and recomputation from identical fields is
deterministic. -/
theorem C5_transfer_code (r : TransferRequest) :
    r.transfer_code =
      md5HexOfString (r.from_iban ++ r.to_iban ++ pyStr r.time_stamp ++
        pyStr r.transfer_amount) ∧
    r.transfer_code.length = 32 ∧
    (∀ c ∈ r.transfer_code, isHexLowerCh c = true) ∧
    (∀ r2 : TransferRequest, r.from_iban = r2.from_iban → r.to_iban = r2.to_iban →
      r.time_stamp = r2.time_stamp → r.transfer_amount = r2.transfer_amount →
      r.transfer_code = r2.transfer_code) := by
  obtain ⟨hlen, hhex⟩ := md5HexOfString_shape (transferStringOf r)
  refine ⟨rfl, hlen, hhex, ?_⟩
  intro r2 h1 h2 h3 h4
  unfold TransferRequest.transfer_code transferStringOf
  rw [h1, h2, h3, h4]

/-- C5 witness: two requests sharing IBANs, timestamp and amount but
differing in concept, type and date produce the same transfer code. -/
theorem C5_transfer_code_witness :
    (TransferRequest.mk ("X".toList) ("Y".toList) ("C one".toList) ("ORDINARY".toList)
        ("D1".toList) ⟨false, 25075, 2⟩ ⟨false, 17, 0⟩).transfer_code =
      (TransferRequest.mk ("X".toList) ("Y".toList) ("C two".toList) ("URGENT".toList)
        ("D2".toList) ⟨false, 25075, 2⟩ ⟨false, 17, 0⟩).transfer_code :=
  (C5_transfer_code _).2.2.2 _ rfl rfl rfl rfl

/-- `transfer_request` either leaves the file system untouched or
succeeds. -/
theorem transfer_request_shape (fs : FS)
    (f t cc ty d : List Char) (a : PyDec) (today : PDate) (ts : PyDec) :
    (transfer_request fs f t cc ty d a today ts).2 = fs ∨
      ∃ v, (transfer_request fs f t cc ty d a today ts).1 = Except.ok v := by
  unfold transfer_request
  split
  · exact Or.inl rfl
  split
  · exact Or.inl rfl
  split
  · exact Or.inl rfl
  split
  · exact Or.inl rfl
  split
  · exact Or.inl rfl
  · exact Or.inr ⟨_, rfl⟩

/-- `deposit_into_account` either leaves the file system untouched or
succeeds. -/
theorem deposit_shape (fs : FS) (input : DepInput) (ts : PyDec) :
    (deposit_into_account fs input ts).2 = fs ∨
      ∃ v, (deposit_into_account fs input ts).1 = Except.ok v := by
  unfold deposit_into_account
  split
  · exact Or.inl rfl
  split
  · exact Or.inl rfl
  split
  · exact Or.inl rfl
  · exact Or.inr ⟨_, rfl⟩

/-- `calculate_balance` either leaves the file system untouched or
succeeds. -/
theorem balance_shape (fs : FS) (iban : List Char) (ts : PyDec) :
    (calculate_balance fs iban ts).2 = fs ∨
      ∃ v, (calculate_balance fs iban ts).1 = Except.ok v := by
  unfold calculate_balance
  split
  · exact Or.inl rfl
  split
  · exact Or.inl rfl
  split
  · exact Or.inl rfl
  split
  · split
    · exact Or.inl rfl
    · exact Or.inr ⟨_, rfl⟩
  · exact Or.inl rfl

/-- C6: an invocation of submit-transfer, submit-deposit or
compute-balance that fails with any error modifies no ledger store
file: validation fully precedes any write, so a failed submission never
produces a partial ledger entry. -/
theorem C6_no_partial_write (fs : FS) (c : CallArgs) (e : PyErr)
    (h : (runOp fs c).1 = Except.error e) : (runOp fs c).2 = fs := by
  cases c with
  | transferCall f t cc ty d a today ts =>
    simp only [runOp] at h ⊢
    rcases transfer_request_shape fs f t cc ty d a today ts with hok | ⟨v, hv⟩
    · exact hok
    · rw [hv] at h
      simp [Except.map] at h
  | depositCall input ts =>
    simp only [runOp] at h ⊢
    rcases deposit_shape fs input ts with hok | ⟨v, hv⟩
    · exact hok
    · rw [hv] at h
      simp [Except.map] at h
  | balanceCall iban ts =>
    simp only [runOp] at h ⊢
    rcases balance_shape fs iban ts with hok | ⟨v, hv⟩
    · exact hok
    · rw [hv] at h
      simp [Except.map] at h

/-- C6 witness: a compute-balance call with a malformed IBAN fails and
leaves the empty file system unchanged. -/
theorem C6_no_partial_write_witness :
    (runOp emptyFS (CallArgs.balanceCall ("X".toList) ⟨false, 0, 0⟩)).2 = emptyFS :=
  C6_no_partial_write emptyFS (CallArgs.balanceCall ("X".toList) ⟨false, 0, 0⟩)
    (PyErr.am AMErr.invalidIbanFormat) (by decide)

/-- C7 counterexample: with the transactions file absent, the primary
implementation `AccountManager.calculate_balance` treats the log as an
empty ledger (`read_json_file` returns `[]`) and fails with IbanNotFound
for the repository's valid example IBAN — not with the MissingInput
error the claim requires. -/
theorem C7_counterexample :
    (calculate_balance emptyFS sampleIban ⟨false, 0, 0⟩).1
        = Except.error (PyErr.am AMErr.ibanNotFound) ∧
      AMErr.ibanNotFound ≠ AMErr.transactionsFileMissing := by
  constructor
  · decide
  · decide

/-- C7 amended: the dist revision's `BalanceService` does fail with the
MissingInput error ("Wrong file  or file path") on an absent
transactions file, for every IBAN passing validation; the primary
`AccountManager.calculate_balance` instead treats the absent log as an
empty sequence and fails with IbanNotFound. -/
theorem C7_missing_log (fs : FS) (iban : List Char) (ts : PyDec)
    (hmiss : fs.transactions = FileContent.missing)
    (hval : validate_iban iban = Except.ok iban) :
    (balanceService_calculate fs iban ts).1
        = Except.error (PyErr.am AMErr.transactionsFileMissing) ∧
      (calculate_balance fs iban ts).1 = Except.error (PyErr.am AMErr.ibanNotFound) := by
  constructor
  · unfold balanceService_calculate
    rw [hval]
    unfold balanceService_load
    rw [hmiss]
  · unfold calculate_balance
    rw [hval]
    have hread : read_json_file fs.transactions = Except.ok [] := by rw [hmiss]; rfl
    rw [hread]
    rfl

/-- C7 witness: on the empty file system and the valid example IBAN,
the dist service reports the missing input and the primary manager
reports IbanNotFound. -/
theorem C7_missing_log_witness :
    (balanceService_calculate emptyFS sampleIban ⟨false, 0, 0⟩).1
        = Except.error (PyErr.am AMErr.transactionsFileMissing) ∧
      (calculate_balance emptyFS sampleIban ⟨false, 0, 0⟩).1
        = Except.error (PyErr.am AMErr.ibanNotFound) :=
  C7_missing_log emptyFS sampleIban ⟨false, 0, 0⟩ rfl (by decide)

/-- C8 counterexample: with both keys present but both the IBAN and the
AMOUNT malformed, the payload validator fails on the IBAN (validated
first), not with the InvalidAmountFormat error the claim's priority
order requires. -/
theorem C8_counterexample :
    validate_deposit_payload
        [("IBAN".toList, JVal.s ("X".toList)), ("AMOUNT".toList, JVal.s ("abc".toList))]
        = Except.error (PyErr.am AMErr.invalidIbanFormat) ∧
      AMErr.invalidIbanFormat ≠ AMErr.invalidDepositAmount := by
  constructor
  · decide
  · decide

/-- C8 amended: a missing `IBAN` or `AMOUNT` key fails with MissingKey;
with both keys present (as strings) the IBAN is validated first,
failing with InvalidFormat or InvalidChecksum before the amount is
looked at; then an AMOUNT not matching `EUR ` + 4 digits + dot +
2 digits fails InvalidAmountFormat; then a parsed amount of exactly 0
fails ZeroAmount; and the remaining cases succeed with the validated
IBAN and the parsed amount. -/
theorem C8_deposit_validation (p : JsonRec) :
    ((lookupKey p ("IBAN".toList) = none ∨ lookupKey p ("AMOUNT".toList) = none) →
      validate_deposit_payload p = Except.error (PyErr.am AMErr.invalidKeyInJson)) ∧
    (∀ ib am, lookupKey p ("IBAN".toList) = some (JVal.s ib) →
      lookupKey p ("AMOUNT".toList) = some (JVal.s am) →
      ((¬ (specIbanFormat ib ∧ specIbanChecksum ib) →
        (validate_deposit_payload p = Except.error (PyErr.am AMErr.invalidIbanFormat) ∨
          validate_deposit_payload p
            = Except.error (PyErr.am AMErr.invalidIbanControlDigit))) ∧
      (specIbanFormat ib → specIbanChecksum ib → eurAmountMatch am = false →
        validate_deposit_payload p = Except.error (PyErr.am AMErr.invalidDepositAmount)) ∧
      (specIbanFormat ib → specIbanChecksum ib → eurAmountMatch am = true →
        (eurAmountValue am).val = 0 →
        validate_deposit_payload p = Except.error (PyErr.am AMErr.depositZero)) ∧
      (specIbanFormat ib → specIbanChecksum ib → eurAmountMatch am = true →
        (eurAmountValue am).val ≠ 0 →
        validate_deposit_payload p = Except.ok (ib, eurAmountValue am)))) := by
  constructor
  · intro hmiss
    unfold validate_deposit_payload
    rcases hmiss with hm | hm
    · rw [hm]
    · rcases hi : lookupKey p ("IBAN".toList) with _ | v
      · rfl
      · rw [hm]
  · intro ib am hib ham
    have hred : validate_deposit_payload p =
        (match validate_iban ib with
         | Except.error e => Except.error (PyErr.am e)
         | Except.ok validated_iban =>
           if eurAmountMatch am then
             (if (eurAmountValue am).val = 0 then Except.error (PyErr.am AMErr.depositZero)
              else Except.ok (validated_iban, eurAmountValue am))
           else Except.error (PyErr.am AMErr.invalidDepositAmount)) := by
      unfold validate_deposit_payload
      rw [hib, ham]
    rw [hred, validate_iban_characterization ib]
    refine ⟨?_, ?_, ?_, ?_⟩
    · intro hn
      by_cases hf : specIbanFormat ib
      · have hc : ¬ specIbanChecksum ib := fun hc => hn ⟨hf, hc⟩
        rw [if_pos hf, if_neg hc]
        exact Or.inr rfl
      · rw [if_neg hf]
        exact Or.inl rfl
    · intro hf hc hm
      rw [if_pos hf, if_pos hc]
      simp [hm]
    · intro hf hc hm h0
      rw [if_pos hf, if_pos hc]
      simp [hm, h0]
    · intro hf hc hm h0
      rw [if_pos hf, if_pos hc]
      simp [hm, h0]

/-- C8 witness: with the valid example IBAN and a malformed AMOUNT, the
validator reports the invalid deposit-amount error (the IBAN check
passed first). -/
theorem C8_deposit_validation_witness :
    validate_deposit_payload
        [("IBAN".toList, JVal.s sampleIban), ("AMOUNT".toList, JVal.s ("abc".toList))]
      = Except.error (PyErr.am AMErr.invalidDepositAmount) :=
  ((C8_deposit_validation
      [("IBAN".toList, JVal.s sampleIban), ("AMOUNT".toList, JVal.s ("abc".toList))]).2
    sampleIban ("abc".toList) (by decide) (by decide)).2.1
    (by decide) (by decide) (by decide)

/-- One unfolding step of the balance loop. -/
theorem balanceFold_cons (ib : List Char) (t : JsonRec) (ts : List JsonRec) :
    balanceFold ib (t :: ts) =
      (if lookupKey t ibanKey == some (JVal.s ib) then
        match (match lookupKey t amountKey with
               | none => Except.ok (0 : ℚ)
               | some v => float_of_jval v) with
        | Except.error e => Except.error e
        | Except.ok q =>
          match balanceFold ib ts with
          | Except.error e => Except.error e
          | Except.ok p => Except.ok (true, q + p.2)
      else balanceFold ib ts) := rfl

/-- Skipping lemma: a transaction record matching the queried IBAN but
lacking an `amount` key contributes `float(0)` to the sum and forces
the found flag. -/
theorem balanceFold_missing_amount (ib : List Char) (t : JsonRec)
    (hib : lookupKey t ibanKey = some (JVal.s ib))
    (hamt : lookupKey t amountKey = none) :
    ∀ l1 l2 : List JsonRec,
      balanceFold ib (l1 ++ t :: l2) =
        (balanceFold ib (l1 ++ l2)).map (fun p => (true, p.2)) := by
  intro l1
  induction l1 with
  | nil =>
    intro l2
    simp only [List.nil_append]
    rw [balanceFold_cons ib t l2, hib, hamt]
    simp only [beq_self_eq_true, if_true]
    rcases hb : balanceFold ib l2 with e | p
    · simp [Except.map]
    · simp [Except.map]
  | cons x xs ih =>
    intro l2
    simp only [List.cons_append]
    rw [balanceFold_cons ib x (xs ++ t :: l2), balanceFold_cons ib x (xs ++ l2)]
    by_cases hx : (lookupKey x ibanKey == some (JVal.s ib)) = true
    · rw [if_pos hx, if_pos hx]
      rcases hq : (match lookupKey x amountKey with
                   | none => Except.ok (0 : ℚ)
                   | some v => float_of_jval v) with e | q
      · rw [hq]
        simp [Except.map]
      · rw [hq, ih l2]
        rcases hb : balanceFold ib (xs ++ l2) with e | p
        · simp [Except.map]
        · simp [Except.map]
    · rw [if_neg hx, if_neg hx]
      exact ih l2

/-- Errors escaping the balance loop come from `float(...)` only. -/
theorem balanceFold_err_kinds (ib : List Char) (l : List JsonRec) :
    ∀ e : PyErr, balanceFold ib l = Except.error e →
      e = PyErr.typeError ∨ e = PyErr.valueError := by
  induction l with
  | nil =>
    intro e h
    simp [balanceFold] at h
  | cons t ts ih =>
    intro e h
    rw [balanceFold_cons ib t ts] at h
    by_cases hx : (lookupKey t ibanKey == some (JVal.s ib)) = true
    · rw [if_pos hx] at h
      rcases hq : (match lookupKey t amountKey with
                   | none => Except.ok (0 : ℚ)
                   | some v => float_of_jval v) with e1 | q
      · rw [hq] at h
        have he : e1 = PyErr.typeError ∨ e1 = PyErr.valueError := by
          rcases ha : lookupKey t amountKey with _ | v
          · rw [ha] at hq
            simp at hq
          · rw [ha] at hq
            rcases v with w | q2 | _
            · simp [float_of_jval] at hq
              exact Or.inr hq.symm
            · simp [float_of_jval] at hq
            · simp [float_of_jval] at hq
              exact Or.inl hq.symm
        simp only [Except.error.injEq] at h
        exact h ▸ he
      · rw [hq] at h
        rcases hb : balanceFold ib ts with e2 | p
        · rw [hb] at h
          simp only [Except.error.injEq] at h
          exact h ▸ ih e2 hb
        · rw [hb] at h
          simp at h
    · rw [if_neg hx] at h
      exact ih e h

/-- C9: a transaction record whose IBAN matches the query but which
lacks an `amount` key is counted with amount 0 — the balance over the
log with the record equals the balance without it, with the found flag
forced to true — and its presence alone suffices to avoid the
IbanNotFound failure of `calculate_balance`. -/
theorem C9_missing_amount (ib : List Char) (t : JsonRec) (l1 l2 : List JsonRec)
    (hib : lookupKey t ibanKey = some (JVal.s ib))
    (hamt : lookupKey t amountKey = none) :
    balanceFold ib (l1 ++ t :: l2) =
      (balanceFold ib (l1 ++ l2)).map (fun p => (true, p.2)) ∧
    (∀ (fs : FS) (ts : PyDec), fs.transactions = FileContent.arr (l1 ++ t :: l2) →
      validate_iban ib = Except.ok ib →
      (calculate_balance fs ib ts).1 ≠ Except.error (PyErr.am AMErr.ibanNotFound)) := by
  have heq := balanceFold_missing_amount ib t hib hamt l1 l2
  refine ⟨heq, ?_⟩
  intro fs ts htx hvi
  have hread : read_json_file fs.transactions = Except.ok (l1 ++ t :: l2) := by
    rw [htx]
    rfl
  have hstep : calculate_balance fs ib ts =
      (match balanceFold ib (l1 ++ t :: l2) with
       | Except.error e => (Except.error e, fs)
       | Except.ok p =>
         if p.1 then
           match read_json_file fs.balances with
           | Except.error e => (Except.error e, fs)
           | Except.ok balance_list =>
             (Except.ok true,
               { fs with balances := FileContent.arr (balance_list ++
                 [[("IBAN".toList, JVal.s ib), ("time".toList, JVal.n ts.val),
                   ("BALANCE".toList, JVal.n p.2)]]) })
         else (Except.error (PyErr.am AMErr.ibanNotFound), fs)) := by
    unfold calculate_balance
    rw [hvi, hread]
  rw [hstep, heq]
  rcases hb : balanceFold ib (l1 ++ l2) with e | p
  · have hkind := balanceFold_err_kinds ib (l1 ++ l2) e hb
    simp only [Except.map]
    intro hcon
    simp only [Except.error.injEq] at hcon
    rcases hkind with rfl | rfl <;> simp at hcon
  · simp only [Except.map]
    rcases hbl : read_json_file fs.balances with e2 | bl
    · intro hcon
      simp only [Except.error.injEq] at hcon
      have he2 : e2 = PyErr.am AMErr.jsonDecodeError := by
        rcases hc : fs.balances with _ | _ | l3 <;> rw [hc] at hbl <;>
          simp [read_json_file] at hbl
        exact hbl.symm
      rw [he2] at hcon
      simp at hcon
    · intro hcon
      simp at hcon

/-- C9 witness: a transaction log holding exactly one record for the
valid example IBAN with no amount yields found-with-zero, and
`calculate_balance` on that log does not fail with IbanNotFound. -/
theorem C9_missing_amount_witness :
    (balanceFold sampleIban [[("IBAN".toList, JVal.s sampleIban)]] =
      (balanceFold sampleIban []).map (fun p => (true, p.2))) ∧
    (calculate_balance
        ⟨FileContent.missing, FileContent.missing, FileContent.missing,
          FileContent.arr [[("IBAN".toList, JVal.s sampleIban)]]⟩
        sampleIban ⟨false, 0, 0⟩).1 ≠ Except.error (PyErr.am AMErr.ibanNotFound) := by
  have h := C9_missing_amount sampleIban [("IBAN".toList, JVal.s sampleIban)] [] []
    (by decide) (by decide)
  exact ⟨h.1, h.2 _ ⟨false, 0, 0⟩ rfl (by decide)⟩
